import Mathlib

/-!
Verification of the planning-and-execution core (SpatialEngine, AdvancedPlanner,
ExecutionEngine, MCPClient dispatch) of the RoboVIbeCoding repository, as a shallow
embedding in Lean.  Python dictionaries, lists, strings and numbers are modelled by a
`Json` value type (numbers as rationals), Python dict/list access by total lookup
functions, and the two external collaborators (the remote scene-manipulation service
and the natural-language planning service) by explicit oracle parameters.  Python
exceptions are modelled with `Except String`.
-/

namespace RoboVibe

/-- A Python/JSON value: `None`, booleans, numbers (modelled as rationals; all numbers
appearing in the verified code paths are exact decimals), strings, lists, and
insertion-ordered dictionaries (association lists with unique keys, as Python dicts). -/
inductive Json where
  | null : Json
  | bool (b : Bool) : Json
  | num (q : ℚ) : Json
  | str (s : String) : Json
  | list (xs : List Json) : Json
  | obj (fields : List (String × Json)) : Json

mutual

/-- Python `==` on values (structural equality; dict equality here is ordered
association-list equality, which coincides with Python dict equality on every
comparison the source performs — those compare lists of numbers). -/
def Json.beq : Json → Json → Bool
  | .null, .null => true
  | .bool a, .bool b => a == b
  | .num a, .num b => a == b
  | .str a, .str b => a == b
  | .list xs, .list ys => Json.beqList xs ys
  | .obj fs, .obj gs => Json.beqFields fs gs
  | _, _ => false

def Json.beqList : List Json → List Json → Bool
  | [], [] => true
  | x :: xs, y :: ys => Json.beq x y && Json.beqList xs ys
  | _, _ => false

def Json.beqFields : List (String × Json) → List (String × Json) → Bool
  | [], [] => true
  | (k, v) :: fs, (l, w) :: gs => k == l && Json.beq v w && Json.beqFields fs gs
  | _, _ => false

end

/-- First binding of a key in an association list (Python dict keys are unique, so
this is exactly Python lookup). -/
def objFind : List (String × Json) → String → Option Json
  | [], _ => none
  | (k, v) :: rest, key => if k = key then some v else objFind rest key

/-- Embeds `d.get(key)` on a Python dict; `None`-producing on non-dicts (the call sites in the
source only apply it to dicts). -/
def Json.get : Json → String → Option Json
  | .obj fields, key => objFind fields key
  | _, _ => none

/-- Embeds `d.get(key, default)`. -/
def Json.getD (j : Json) (key : String) (default : Json) : Json :=
  (j.get key).getD default

/-- Embeds `key in d` on a Python dict. -/
def Json.hasKey (j : Json) (key : String) : Bool :=
  (j.get key).isSome

/-- Python truthiness of a value (`if value:`). -/
def Json.truthy : Json → Bool
  | .null => false
  | .bool b => b
  | .num q => q ≠ 0
  | .str s => s ≠ ""
  | .list xs => !xs.isEmpty
  | .obj fields => !fields.isEmpty

def Json.isObj : Json → Bool
  | .obj _ => true
  | _ => false

def Json.isList : Json → Bool
  | .list _ => true
  | _ => false

/-- Length of a Python list (`len`); the call sites only apply it to lists. -/
def Json.listLength : Json → ℕ
  | .list xs => xs.length
  | _ => 0

/-- Dict assignment `d[key] = v`: updates the first binding in place, else appends
(Python dicts keep insertion order and update existing keys in place). -/
def objSet : List (String × Json) → String → Json → List (String × Json)
  | [], key, v => [(key, v)]
  | (k, w) :: rest, key, v =>
    if k = key then (k, v) :: rest else (k, w) :: objSet rest key v

/-- Embeds `d[key] = v` on a `Json` object (identity on non-dicts; call sites are dicts). -/
def Json.setKey : Json → String → Json → Json
  | .obj fields, key, v => .obj (objSet fields key v)
  | j, _, _ => j

/-- Python `str.lower()` (the strings scanned in the source are ASCII; defined over
the char list so that it reduces definitionally). -/
def strLower (s : String) : String := String.mk (s.toList.map Char.toLower)

/-- Embeds `needle.isPrefixOf hay`, char lists. -/
def charsContain (needle : List Char) : List Char → Bool
  | [] => needle.isPrefixOf ([] : List Char)
  | c :: t => needle.isPrefixOf (c :: t) || charsContain needle t

/-- Python substring containment `sub in s`. -/
def strContains (s sub : String) : Bool := charsContain sub.toList s.toList

/-- Decimal value of a digit run. -/
def digitsToNat (ds : List Char) : ℕ :=
  ds.foldl (fun n c => 10 * n + (c.toNat - 48)) 0

/-- Embeds `re.search(r'(\d+)', s)`: the first maximal digit run of `s`, if any. -/
def firstDigitRun : List Char → Option (List Char)
  | [] => none
  | c :: cs =>
    if c.isDigit then some (c :: cs.takeWhile Char.isDigit) else firstDigitRun cs

/-- First integer occurring in a string (`re.search(r'(\d+)', s)` + `int`). -/
def firstNat (s : String) : Option ℕ :=
  (firstDigitRun s.toList).map digitsToNat

/-! ## SpatialEngine (`src/backend/spatial_engine.py`)

Positions are rationals (the Python floats on these paths are exact small decimals).
`math.cos`, `math.sin` and `math.pi` — used only by the circular and curved-path
layouts — are taken as oracle parameters `cosF`, `sinF`, `piQ`; no verified claim
depends on their values. -/

/-- The identity 3x3 rotation matrix emitted by `vector3_to_cframe`. -/
def identityOrientation : Json :=
  .list [.list [.num 1, .num 0, .num 0],
         .list [.num 0, .num 1, .num 0],
         .list [.num 0, .num 0, .num 1]]

/-- Embeds `SpatialEngine.vector3_to_cframe`: position + identity orientation (Rojo v7). -/
def vector3_to_cframe (x y z : ℚ) : Json :=
  .obj [("position", .list [.num x, .num y, .num z]),
        ("orientation", identityOrientation)]

/-- One difficulty row of the `settings` table in `calculate_obby_platforms`. -/
structure DiffConfig where
  x_spacing : ℤ
  z_spacing : ℤ
  y_variation : ℤ
  platform_size : List ℚ

/-- Embeds `settings.get(difficulty, settings['medium'])`. -/
def obbySettings (difficulty : String) : DiffConfig :=
  if difficulty = "easy" then ⟨8, 0, 2, [8, 1, 8]⟩
  else if difficulty = "medium" then ⟨10, 2, 3, [6, 1, 6]⟩
  else if difficulty = "hard" then ⟨12, 4, 4, [4, 1, 4]⟩
  else ⟨10, 2, 3, [6, 1, 6]⟩

/-- Embeds `colors` list in `get_obby_color`. -/
def obbyColors : List String :=
  ["Bright blue", "Bright green", "Bright yellow",
   "Bright orange", "Bright red", "Bright violet"]

/-- Embeds `SpatialEngine.get_obby_color`: `colors[index % len(colors)]`. -/
def get_obby_color (index : ℕ) : String :=
  obbyColors.getD (index % obbyColors.length) ""

/-- The loop body of `calculate_obby_platforms` updating `(current_x, current_y,
current_z)` at index `i` (no change at `i = 0`; `//` is Python floor division). -/
def obbyStep (config : DiffConfig) (i : ℕ) : ℤ × ℤ × ℤ → ℤ × ℤ × ℤ
  | (x, y, z) =>
    if i > 0 then
      let x' := x + config.x_spacing
      let z' := z + (if i % 2 = 0 then -1 else 1) * config.z_spacing
      let y' := if i % 3 = 0 then y + config.y_variation
                else if i % 3 = 1 then y - Int.fdiv config.y_variation 2
                else y
      (x', y', z')
    else (x, y, z)

/-- The platform dict appended at index `i` with current position `(x, y, z)`. -/
def platformSpec (config : DiffConfig) (i : ℕ) : ℤ × ℤ × ℤ → Json
  | (x, y, z) =>
    .obj [("name", .str ("Platform" ++ toString (i + 1))),
          ("className", .str "Part"),
          ("parent", .str "game.Workspace"),
          ("properties", .obj
            [("CFrame", vector3_to_cframe (x : ℚ) (y : ℚ) (z : ℚ)),
             ("Size", .list (config.platform_size.map Json.num)),
             ("BrickColor", .str (get_obby_color i)),
             ("Material", .str "Plastic"),
             ("Anchored", .bool true)])]

/-- The `for i in range(num_platforms)` loop: `fuel` iterations remain, `i` is the
current index, the triple is the running position. -/
def obbyGo (config : DiffConfig) : ℕ → ℕ → ℤ × ℤ × ℤ → List Json
  | 0, _, _ => []
  | fuel + 1, i, pos =>
    let pos' := obbyStep config i pos
    platformSpec config i pos' :: obbyGo config fuel (i + 1) pos'

/-- Embeds `SpatialEngine.calculate_obby_platforms` (count as ℤ: `range(n)` is empty for
`n ≤ 0`); starting position `(0, 5, 0)`. -/
def calculate_obby_platforms (num_platforms : ℤ) (difficulty : String) : List Json :=
  obbyGo (obbySettings difficulty) num_platforms.toNat 0 (0, 5, 0)

/-- A `[x, y, z]` size/position triple as a Python list of numbers. -/
structure Vec3 where
  x : ℚ
  y : ℚ
  z : ℚ

/-- Exact ceiling of the square root (`math.ceil(math.sqrt(n))`; the float sqrt is
exact on every perfect square and never off by enough to cross an integer for the
small counts in scope). -/
def ceilSqrt (n : ℕ) : ℕ :=
  if Nat.sqrt n * Nat.sqrt n = n then Nat.sqrt n else Nat.sqrt n + 1

/-- Embeds `SpatialEngine.calculate_grid_layout`: grid positions (CFrames). -/
def calculate_grid_layout (num_objects : ℕ) (object_size : Vec3) (spacing : ℚ) :
    List Json :=
  let grid_size := ceilSqrt num_objects
  let x_step := object_size.x + spacing
  let z_step := object_size.z + spacing
  (List.range num_objects).map fun i =>
    let row := i / grid_size
    let col := i % grid_size
    vector3_to_cframe (col * x_step) (object_size.y / 2) (row * z_step)

/-- Embeds `SpatialEngine.calculate_circular_layout`; `cosF`, `sinF`, `piQ` stand for the
floating-point `math.cos`, `math.sin`, `math.pi`. -/
def calculate_circular_layout (cosF sinF : ℚ → ℚ) (piQ : ℚ)
    (num_objects : ℕ) (radius height : ℚ) : List Json :=
  let angle_step := (2 * piQ) / num_objects
  (List.range num_objects).map fun i =>
    let angle := i * angle_step
    vector3_to_cframe (radius * cosF angle) height (radius * sinF angle)

/-- Embeds `SpatialEngine.calculate_staircase`: step dicts. -/
def calculate_staircase (num_steps : ℕ) (step_size : Vec3) (rise run : ℚ) :
    List Json :=
  (List.range num_steps).map fun i =>
    .obj [("name", .str ("Step" ++ toString (i + 1))),
          ("className", .str "Part"),
          ("parent", .str "game.Workspace"),
          ("properties", .obj
            [("CFrame", vector3_to_cframe 0 (i * rise + step_size.y / 2) (i * run)),
             ("Size", .list [.num step_size.x, .num step_size.y, .num step_size.z]),
             ("BrickColor", .str "Dark stone grey"),
             ("Material", .str "Slate"),
             ("Anchored", .bool true)])]

/-- One row of the `sizes` table in `_create_house`. -/
structure HouseConfig where
  base : Vec3
  roof_height : ℚ

/-- Embeds `sizes.get(size, sizes['medium'])` in `_create_house`. -/
def houseSizes (size : String) : HouseConfig :=
  if size = "small" then ⟨⟨20, 10, 15⟩, 8⟩
  else if size = "medium" then ⟨⟨30, 12, 25⟩, 10⟩
  else if size = "large" then ⟨⟨40, 15, 35⟩, 12⟩
  else ⟨⟨30, 12, 25⟩, 10⟩

/-- A house part dict (`name`, `className`, CFrame, size, color, material). -/
def housePart (name className : String) (cf : Json) (size : List ℚ)
    (color material : String) : Json :=
  .obj [("name", .str name),
        ("className", .str className),
        ("parent", .str "Workspace"),
        ("properties", .obj
          [("CFrame", cf),
           ("Size", .list (size.map Json.num)),
           ("BrickColor", .str color),
           ("Material", .str material),
           ("Anchored", .bool true)])]

/-- Embeds `SpatialEngine._create_house`: floor, four walls, roof. -/
def create_house (size : String) : List Json :=
  let config := houseSizes size
  let base_size := config.base
  let wall_thickness : ℚ := 1
  let wall_height := base_size.y
  [housePart "HouseFloor" "Part" (vector3_to_cframe 0 (1/2) 0)
     [base_size.x, 1, base_size.z] "Dark stone grey" "Concrete",
   housePart "HouseFrontWall" "Part"
     (vector3_to_cframe 0 (wall_height / 2) (-(base_size.z / 2)))
     [base_size.x, wall_height, wall_thickness] "Brick yellow" "Brick",
   housePart "HouseBackWall" "Part"
     (vector3_to_cframe 0 (wall_height / 2) (base_size.z / 2))
     [base_size.x, wall_height, wall_thickness] "Brick yellow" "Brick",
   housePart "HouseLeftWall" "Part"
     (vector3_to_cframe (-(base_size.x / 2)) (wall_height / 2) 0)
     [wall_thickness, wall_height, base_size.z] "Brick yellow" "Brick",
   housePart "HouseRightWall" "Part"
     (vector3_to_cframe (base_size.x / 2) (wall_height / 2) 0)
     [wall_thickness, wall_height, base_size.z] "Brick yellow" "Brick",
   housePart "HouseRoof" "WedgePart"
     (vector3_to_cframe 0 (wall_height + config.roof_height / 2) 0)
     [base_size.x, config.roof_height, base_size.z] "Dark orange" "Slate"]

/-- One row of the `sizes` table in `_create_tower`. -/
structure TowerConfig where
  base : ℚ
  floors : ℕ
  floor_height : ℚ

/-- Embeds `sizes.get(size, sizes['medium'])` in `_create_tower`. -/
def towerSizes (size : String) : TowerConfig :=
  if size = "small" then ⟨8, 5, 4⟩
  else if size = "medium" then ⟨12, 8, 5⟩
  else if size = "large" then ⟨16, 12, 6⟩
  else ⟨12, 8, 5⟩

/-- Embeds `SpatialEngine._create_tower`: N stacked floor slabs. -/
def create_tower (size : String) : List Json :=
  let config := towerSizes size
  (List.range config.floors).map fun floor =>
    .obj [("name", .str ("TowerFloor" ++ toString (floor + 1))),
          ("className", .str "Part"),
          ("parent", .str "game.Workspace"),
          ("properties", .obj
            [("CFrame", vector3_to_cframe 0 (floor * config.floor_height + 1/2) 0),
             ("Size", .list [.num config.base, .num 1, .num config.base]),
             ("BrickColor",
              .str (if floor % 2 = 0 then "Medium stone grey" else "Dark stone grey")),
             ("Material", .str "Concrete"),
             ("Anchored", .bool true)])]

/-- Embeds `SpatialEngine._create_shop` delegates to `_create_house`. -/
def create_shop (size : String) : List Json := create_house size

/-- Embeds `SpatialEngine.calculate_building_layout`. -/
def calculate_building_layout (building_type size : String) : List Json :=
  if building_type = "house" then create_house size
  else if building_type = "tower" then create_tower size
  else if building_type = "shop" then create_shop size
  else []

/-- Embeds `SpatialEngine.calculate_path_points`; `sinF`/`piQ` stand for `math.sin`/`math.pi`. -/
def calculate_path_points (sinF : ℚ → ℚ) (piQ : ℚ)
    (start_pos end_pos : Vec3) (num_points : ℕ) (curve_amount : ℚ) : List Json :=
  (List.range num_points).map fun i =>
    let t : ℚ := if num_points > 1 then (i : ℚ) / ((num_points : ℚ) - 1) else 0
    let x := start_pos.x + (end_pos.x - start_pos.x) * t
    let y := start_pos.y + (end_pos.y - start_pos.y) * t
    let z := start_pos.z + (end_pos.z - start_pos.z) * t
    let y := if curve_amount > 0 then y + curve_amount * sinF (t * piQ) else y
    vector3_to_cframe x y z

/-- Numeric content of a `Json` value (`0` on non-numbers; the source would raise on
those inputs, which no verified path produces). -/
def Json.asNum : Json → ℚ
  | .num q => q
  | _ => 0

/-- Embeds `lst[i]` on a `Json` list (`null` out of range / on non-lists; the source would
raise there, which no verified path produces). -/
def Json.idx (j : Json) (i : ℕ) : Json :=
  match j with
  | .list xs => xs.getD i .null
  | _ => .null

/-- Embeds `SpatialEngine.get_spawn_location`: spawn CFrame 2.5 studs above the platform
top; accepts a Rojo-format CFrame dict or a bare `[x, y, z]` list.  `platform_size` is
the `[x, y, z]` size as a Json list (the source indexes `platform_size[1]`). -/
def get_spawn_location (platform_cframe : Json) (platform_size : Json) : Json :=
  let xyz :=
    if platform_cframe.isObj && platform_cframe.hasKey "position" then
      let pos := platform_cframe.getD "position" .null
      (Json.asNum (pos.idx 0), Json.asNum (pos.idx 1), Json.asNum (pos.idx 2))
    else
      (Json.asNum (platform_cframe.idx 0), Json.asNum (platform_cframe.idx 1),
       Json.asNum (platform_cframe.idx 2))
  vector3_to_cframe xyz.1 (xyz.2.1 + (platform_size.idx 1).asNum / 2 + 5/2) xyz.2.2

/-- Position list of the `i`-th spec of a layout output (under `properties.CFrame`). -/
def posOf (specs : List Json) (i : ℕ) : Option Json :=
  ((specs.get? i).bind (·.get "properties")).bind (·.get "CFrame") |>.bind (·.get "position")

/-- The `k`-th coordinate of the `i`-th spec, as a rational. -/
def coordOf (specs : List Json) (i k : ℕ) : Option ℚ :=
  (posOf specs i).map (fun p => (p.idx k).asNum)

/-! ## roblox_knowledge (`src/backend/roblox_knowledge.py`) -/

/-- Verbatim `ROBLOX_CODE_TEMPLATES['checkpoint_system']` from `roblox_knowledge.py`
(literal braces written with escape sequences).  The other template entries are never
fetched on any verified code path and are elided from the table below. -/
def checkpoint_system_template : String :=
  "-- Checkpoint System for Obby Games\nlocal Players = game:GetService(\"Players\")\nlocal c" ++
  "heckpoints = workspace:WaitForChild(\"Checkpoints\"):GetChildren()\n\n-- Sort checkpoints " ++
  "by name\ntable.sort(checkpoints, function(a, b)\n    return tonumber(a.Name:match(\"%d+\")" ++
  ") < tonumber(b.Name:match(\"%d+\"))\nend)\n\nlocal playerCheckpoints = \x7b\x7d\n\nPlayers" ++
  ".PlayerAdded:Connect(function(player)\n    playerCheckpoints[player.UserId] = 1\n    \n   " ++
  " player.CharacterAdded:Connect(function(character)\n        local humanoid = character:Wai" ++
  "tForChild(\"Humanoid\")\n        local hrp = character:WaitForChild(\"HumanoidRootPart\")\n" ++
  "        \n        -- Teleport to last checkpoint\n        local checkpointIndex = playerCh" ++
  "eckpoints[player.UserId] or 1\n        if checkpoints[checkpointIndex] then\n            h" ++
  "rp.CFrame = checkpoints[checkpointIndex].CFrame + Vector3.new(0, 3, 0)\n        end\n     " ++
  "   \n        -- Death handling\n        humanoid.Died:Connect(function()\n            task" ++
  ".wait(2)\n            player:LoadCharacter()\n        end)\n    end)\nend)\n\n-- Checkpoin" ++
  "t touch detection\nfor i, checkpoint in ipairs(checkpoints) do\n    checkpoint.Touched:Con" ++
  "nect(function(hit)\n        local character = hit.Parent\n        local player = Players:G" ++
  "etPlayerFromCharacter(character)\n        \n        if player and playerCheckpoints[player" ++
  ".UserId] == i then\n            playerCheckpoints[player.UserId] = i + 1\n            chec" ++
  "kpoint.BrickColor = BrickColor.new(\"Bright green\")\n            checkpoint.Material = En" ++
  "um.Material.Neon\n        end\n    end)\nend"

/-- The error message CPython raises for an auto-numbered replacement field when
`str.format` is called with no positional arguments. -/
def formatIndexError : String :=
  "IndexError: Replacement index 0 out of range for positional args tuple"

/-- Model of Python `template.format()` with no arguments: doubled braces are literal,
any replacement field raises (an auto-numbered field raises `IndexError`; the only
template formatted on a verified path, `checkpoint_system`, hits the auto-numbered
field `\x7b\x7d` first, so the `IndexError` message is the faithful one). -/
def pyFormatChars : List Char → Except String (List Char)
  | [] => .ok []
  | '\x7b' :: '\x7b' :: rest => (pyFormatChars rest).map (fun cs => '\x7b' :: cs)
  | '\x7b' :: _ => .error formatIndexError
  | '\x7d' :: '\x7d' :: rest => (pyFormatChars rest).map (fun cs => '\x7d' :: cs)
  | '\x7d' :: _ => .error "ValueError: Single brace encountered in format string"
  | c :: rest => (pyFormatChars rest).map (fun cs => c :: cs)

/-- Python `template.format()` with no arguments, on strings. -/
def pyFormat (s : String) : Except String String :=
  (pyFormatChars s.toList).map (fun cs => String.mk cs)

/-- The `ROBLOX_CODE_TEMPLATES` table, restricted to the entries reachable from the
verified call sites (only `checkpoint_system` is ever fetched there). -/
def ROBLOX_CODE_TEMPLATES : List (String × String) :=
  [("checkpoint_system", checkpoint_system_template)]

/-- Embeds `roblox_knowledge.get_template` called with no keyword arguments (as the
planner does): look up the template and `.format()` it, or return `None`. -/
def get_template (template_name : String) : Except String (Option String) :=
  match ROBLOX_CODE_TEMPLATES.lookup template_name with
  | some t => (pyFormat t).map some
  | none => .ok none

/-! ## Task representation

A Python task is a dict; the engine reads it only through `task.get` with the
defaults reproduced below, so it is modelled as a record of exactly those fields.
AI-produced task dicts are converted by `jsonToTask`, mapping a present non-string
value of a string field to a sentinel that matches no dispatch key. -/

structure Task where
  type : String := "chat"
  description : String := "Unknown task"
  params : Json := .obj []
  reasoning : String := ""
  note : Option String := none
  verify_with : Option String := none
  verify_params : Json := .obj []
  verify_condition : String := ""

/-- Conversion from an AI-produced task dict (as parsed Json) to the fields the
engine reads, with the engine's `get` defaults. -/
def jsonToTask (j : Json) : Task :=
  { type := match j.get "type" with
      | some (.str s) => s
      | some _ => "\x00nonstring"
      | none => "chat"
    description := match j.get "description" with
      | some (.str s) => s
      | some _ => "\x00nonstring"
      | none => "Unknown task"
    params := j.getD "params" (.obj [])
    verify_with := match j.get "verify_with" with
      | some (.str s) => if s = "" then none else some s
      | some v => if v.truthy then some "\x00nonstring" else none
      | none => none
    verify_params := j.getD "verify_params" (.obj [])
    verify_condition := match j.get "verify_condition" with
      | some (.str s) => s
      | some _ => "\x00nonstring"
      | none => "" }

/-! ## AdvancedPlanner (`src/backend/advanced_planner.py`)

The two oracles are `gemini : String → String` (`GeminiClient.generate_response`,
which catches every exception internally and returns a string) and
`extract : String → Option Json` (`_extract_json`, total because every parse
strategy is exception-guarded and failure returns `None`).  Prompt text only flows
into `gemini`; the long instructional prose inside the prompts is abbreviated, its
content being immaterial to every claim. -/

/-- Stand-in for `MCPToolRegistry.generate_tool_context_for_ai` (a static
documentation string that only feeds the planning-service oracle). -/
def generate_tool_context_for_ai : String :=
  "# MCP TOOLS DOCUMENTATION (tool catalog, parameter contracts, usage heuristics)"

mutual

/-- Serialization of a `Json` value (stands for `json.dumps`; only feeds the
planning-service oracle inside a prompt). -/
def Json.dump : Json → String
  | .null => "null"
  | .bool b => if b then "true" else "false"
  | .num q => toString q
  | .str s => "\"" ++ s ++ "\""
  | .list xs => "[" ++ Json.dumpList xs ++ "]"
  | .obj fs => "\x7b" ++ Json.dumpFields fs ++ "\x7d"

def Json.dumpList : List Json → String
  | [] => ""
  | [x] => Json.dump x
  | x :: xs => Json.dump x ++ ", " ++ Json.dumpList xs

def Json.dumpFields : List (String × Json) → String
  | [] => ""
  | [(k, v)] => "\"" ++ k ++ "\": " ++ Json.dump v
  | (k, v) :: fs => "\"" ++ k ++ "\": " ++ Json.dump v ++ ", " ++ Json.dumpFields fs

end

/-- The chain-of-thought prompt of `_analyze_request_with_cot` (instructional prose
abbreviated). -/
def cot_prompt (tool_docs user_request : String) : String :=
  tool_docs ++ "\n\n# Chain-of-Thought Analysis\n\nUser Request: \"" ++ user_request ++
  "\"\n\nThink through this step-by-step... Return ONLY the JSON, no other text."

/-- The fallback analysis dict substituted when `_extract_json` yields nothing
truthy. -/
def fallback_analysis (user_request : String) : Json :=
  .obj [("goal", .str user_request),
        ("components", .list [.str "unknown"]),
        ("spatial_requirements", .obj
          [("needs_positioning", .bool false), ("layout_type", .str "none"),
           ("num_objects", .num 0)]),
        ("tool_recommendations", .list [.str "create_object_with_properties"]),
        ("dependencies", .obj []),
        ("verification_needs", .list [])]

/-- Embeds `_analyze_request_with_cot`.  Both oracles are total, so the
`except`-branch fallback of the source is unreachable and not modelled. -/
def analyze_request_with_cot (gemini : String → String) (extract : String → Option Json)
    (user_request : String) : Json :=
  let analysis_text := gemini (cot_prompt generate_tool_context_for_ai user_request)
  match extract analysis_text with
  | some a => if a.truthy then a else fallback_analysis user_request
  | none => fallback_analysis user_request

/-- Model of the obby count pattern `re.search` for digits, optional whitespace and
one of `platform`, `stage`, `level`, `part`: leftmost match wins. -/
def matchCountPattern : List Char → Option ℕ
  | [] => none
  | c :: cs =>
    if c.isDigit then
      let run := c :: cs.takeWhile Char.isDigit
      let rest := (cs.dropWhile Char.isDigit).dropWhile Char.isWhitespace
      if ["platform", "stage", "level", "part"].any (fun w => w.toList.isPrefixOf rest)
      then some (digitsToNat run)
      else matchCountPattern cs
    else matchCountPattern cs

/-- Platform count extraction in `_plan_obby` (default 10). -/
def extract_num_platforms (user_request : String) : ℕ :=
  (matchCountPattern (strLower user_request).toList).getD 10

/-- Difficulty extraction in `_plan_obby` (default medium). -/
def extract_difficulty (user_request : String) : String :=
  if strContains (strLower user_request) "easy" then "easy"
  else if strContains (strLower user_request) "hard" then "hard"
  else "medium"

/-- Task 1 of `_plan_obby`: the Checkpoints folder. -/
def obbyTask1 : Task :=
  { type := "create_object"
    description := "Create Checkpoints folder in Workspace"
    params := .obj [("className", .str "Folder"), ("parent", .str "game.Workspace"),
                    ("name", .str "Checkpoints"), ("properties", .obj [])]
    reasoning := "Organize checkpoints in dedicated folder"
    verify_with := some "get_instance_children"
    verify_params := .obj [("path", .str "game.Workspace")] }

/-- Task 2 of `_plan_obby`: the bulk platform creation. -/
def obbyTask2 (num_platforms : ℕ) (platform_configs : List Json) : Task :=
  { type := "mass_create_objects_with_properties"
    description := "Create " ++ toString num_platforms ++
      " obby platforms with calculated positions"
    params := .obj [("objects", .list platform_configs)]
    reasoning := "Using mass_create for efficiency with spatially calculated positions. " ++
      "Each platform has unique CFrame coordinates for proper spacing."
    verify_with := some "get_instance_children"
    verify_params := .obj [("path", .str "Workspace")]
    verify_condition := "Check that " ++ toString num_platforms ++
      " platforms exist with different positions" }

/-- Task 3 of `_plan_obby`: the spawn location, derived from platform 0's pose. -/
def obbyTask3 (spawn_cframe : Json) : Task :=
  { type := "create_object_with_properties"
    description := "Create SpawnLocation on first platform"
    params := .obj [("className", .str "SpawnLocation"), ("parent", .str "game.Workspace"),
      ("name", .str "StartSpawn"),
      ("properties", .obj
        [("CFrame", spawn_cframe),
         ("Size", .list [.num 6, .num 1, .num 6]),
         ("BrickColor", .str "Bright green"),
         ("Transparency", .num 0),
         ("Duration", .num 0)])]
    reasoning := "Players need a spawn point on the first platform"
    verify_with := some "get_instance_properties"
    verify_params := .obj [("path", .str "game.Workspace.StartSpawn")] }

/-- Task 4 of `_plan_obby`: the organizational move into the Checkpoints folder. -/
def obbyTask4 (num_platforms : ℕ) : Task :=
  { type := "move_to_folder"
    description := "Organize platforms into Checkpoints folder"
    params := .obj
      [("platform_names", .list ((List.range num_platforms).map
          (fun i => .str ("Platform" ++ toString (i + 1))))),
       ("folder_path", .str "Workspace.Checkpoints")]
    reasoning := "Keep workspace organized"
    note := some "This requires manual implementation or script" }

/-- Task 5 of `_plan_obby`: the checkpoint system script (`content` is the fetched
template, `null` when `get_template` returned `None`). -/
def obbyTask5 (checkpoint_script : Option String) : Task :=
  { type := "create_script"
    description := "Create checkpoint system script"
    params := .obj
      [("name", .str "CheckpointSystem"),
       ("parent_path", .str "ServerScriptService"),
       ("script_type", .str "Script"),
       ("content", match checkpoint_script with | some s => .str s | none => .null)]
    reasoning := "Script to handle checkpoint saving and respawning"
    verify_with := some "get_script_source"
    verify_params := .obj [("instancePath", .str "ServerScriptService.CheckpointSystem")] }

/-- The part of `_plan_obby` executed before the `get_template` call: count and
difficulty extraction, platform layout, and tasks 1–4.  Reading
`platform_configs[0]` raises `IndexError` when the platform list is empty. -/
def plan_obby_prefix (user_request : String) : Except String (List Task) :=
  let num_platforms := extract_num_platforms user_request
  let difficulty := extract_difficulty user_request
  let platform_configs := calculate_obby_platforms num_platforms difficulty
  match platform_configs with
  | [] => .error "IndexError: list index out of range"
  | c0 :: _ =>
    let first_platform_cframe := (c0.getD "properties" .null).getD "CFrame" .null
    let first_platform_size := (c0.getD "properties" .null).getD "Size" .null
    let spawn_cframe := get_spawn_location first_platform_cframe first_platform_size
    .ok [obbyTask1, obbyTask2 num_platforms platform_configs, obbyTask3 spawn_cframe,
         obbyTask4 num_platforms]

/-- Embeds `_plan_obby` (the `analysis` argument is unused in the source as well).
After tasks 1–4, `get_template('checkpoint_system')` is fetched for task 5. -/
def plan_obby (user_request : String) (_analysis : Json) : Except String (List Task) :=
  match plan_obby_prefix user_request with
  | .error e => .error e
  | .ok pre =>
    match get_template "checkpoint_system" with
    | .error e => .error e
    | .ok tmpl => .ok (pre ++ [obbyTask5 tmpl])

/-- Embeds `_plan_tycoon`. -/
def plan_tycoon (_user_request : String) (_analysis : Json) : List Task :=
  [{ type := "create_object"
     description := "Create TycoonData folder"
     params := .obj [("className", .str "Folder"), ("parent", .str "ReplicatedStorage"),
                     ("name", .str "TycoonData"), ("properties", .obj [])] },
   { type := "create_object_with_properties"
     description := "Create tycoon base plot"
     params := .obj [("className", .str "Part"), ("parent", .str "game.Workspace"),
       ("name", .str "TycoonPlot"),
       ("properties", .obj
         [("CFrame", .list [.num 0, .num (1/2), .num 0]),
          ("Size", .list [.num 50, .num 1, .num 50]),
          ("BrickColor", .str "Dark green"),
          ("Anchored", .bool true)])] }]

/-- Embeds `_plan_building`. -/
def plan_building (user_request : String) (_analysis : Json) : List Task :=
  let lower := strLower user_request
  let building_type :=
    if strContains lower "tower" then "tower"
    else if strContains lower "shop" then "shop"
    else "house"
  let size :=
    if strContains lower "small" then "small"
    else if strContains lower "large" || strContains lower "big" then "large"
    else "medium"
  let building_objects := calculate_building_layout building_type size
  if building_objects.isEmpty then []
  else
    [{ type := "mass_create_objects_with_properties"
       description := "Create " ++ building_type ++ " structure (" ++ size ++ ")"
       params := .obj [("objects", .list building_objects)]
       reasoning := "Using spatial engine to create properly positioned " ++
         building_type ++ " components"
       verify_with := some "get_instance_children"
       verify_params := .obj [("path", .str "Workspace")] }]

/-- The script-generation prompt of `_plan_script_system`. -/
def script_prompt (user_request : String) : String :=
  "Create a Lua script for Roblox that implements: " ++ user_request ++
  "\n\nRequirements:\n- Follow Roblox best practices\n" ++
  "- Use proper service access via game:GetService()\n" ++
  "- Include error handling with pcall where appropriate\n" ++
  "- Add comments explaining the code\n- Make it production-ready\n\n" ++
  "Return ONLY the Lua code, no explanations."

/-- Word characters, for the word-character class of the name pattern. -/
def isWordChar (c : Char) : Bool := c.isAlphanum || c = '_'

/-- After a `called`/`named` keyword: required whitespace, an optional quote (with
the backtracking the optional quantifier performs), then a non-empty word-character
run. -/
def matchNameAfter (cs : List Char) : Option (List Char) :=
  if (cs.takeWhile Char.isWhitespace).isEmpty then none
  else
    let rest := cs.dropWhile Char.isWhitespace
    let tryAt := fun (l : List Char) =>
      let w := l.takeWhile isWordChar
      if w.isEmpty then none else some w
    match rest with
    | c :: t =>
      if c = '"' || c = '\x27' then (tryAt t).orElse (fun _ => tryAt rest)
      else tryAt rest
    | [] => none

/-- Model of the script-name pattern of `_plan_script_system` (keyword `called` or
`named`, whitespace, optional quote, captured word): leftmost occurrence wins. -/
def findScriptName : List Char → Option (List Char)
  | [] => none
  | c :: t =>
    (if "called".toList.isPrefixOf (c :: t) then matchNameAfter ((c :: t).drop 6)
     else if "named".toList.isPrefixOf (c :: t) then matchNameAfter ((c :: t).drop 5)
     else none).orElse (fun _ => findScriptName t)

/-- Embeds `_plan_script_system` (the `gemini` oracle never raises, so neither does
this path). -/
def plan_script_system (gemini : String → String) (user_request : String)
    (_analysis : Json) : List Task :=
  let script_content := gemini (script_prompt user_request)
  let lower := strLower user_request
  let st :=
    if strContains lower "local" || strContains lower "client" then
      ("LocalScript", "StarterPlayer.StarterPlayerScripts")
    else if strContains lower "module" then ("ModuleScript", "ReplicatedStorage")
    else ("Script", "ServerScriptService")
  let script_name :=
    match findScriptName user_request.toList with
    | some w => String.mk w
    | none => "NewScript"
  [{ type := "create_script"
     description := "Create " ++ st.1 ++ " for " ++ user_request
     params := .obj
       [("name", .str script_name),
        ("parent_path", .str st.2),
        ("script_type", .str st.1),
        ("content", .str script_content)]
     reasoning := "Generated complete script based on requirements"
     verify_with := some "get_script_source"
     verify_params := .obj [("instancePath", .str (st.2 ++ "." ++ script_name))] }]

/-- The generic planning prompt of `_plan_with_ai` (instructional prose abbreviated;
it embeds the tool docs, the dumped analysis, the request and the first 300
characters of the context). -/
def planning_prompt (user_request : String) (analysis : Json) (context : String) :
    String :=
  generate_tool_context_for_ai ++ "\n\nAnalysis of user request:\n" ++ analysis.dump ++
  "\n\nUser Request: \"" ++ user_request ++ "\"\n\nContext: " ++ context.take 300 ++
  "\n\nCreate a detailed execution plan... Return ONLY a JSON array of tasks."

/-- The ultimate fallback task of `_plan_with_ai`. -/
def chatFallbackTask : Task :=
  { type := "chat"
    description := "Unable to create detailed plan, providing guidance"
    params := .obj []
    reasoning := "Fallback to chat mode" }

/-- One attempt of the `_plan_with_ai` retry loop: generate, extract, and accept a
non-empty list. -/
def planWithAiAttempt (gemini : String → String) (extract : String → Option Json)
    (user_request : String) (analysis : Json) (context : String) :
    Option (List Task) :=
  let response := gemini (planning_prompt user_request analysis context)
  match extract response with
  | some (.list (t :: ts)) => some ((t :: ts).map jsonToTask)
  | _ => none

/-- Embeds `_plan_with_ai`: two attempts (its local retry bound is 2), then the
chat fallback.  Both oracles are total, so the `except` branch is unreachable. -/
def plan_with_ai (gemini : String → String) (extract : String → Option Json)
    (user_request : String) (analysis : Json) (context : String) : List Task :=
  match planWithAiAttempt gemini extract user_request analysis context with
  | some tasks => tasks
  | none =>
    match planWithAiAttempt gemini extract user_request analysis context with
    | some tasks => tasks
    | none => [chatFallbackTask]

/-- The obby-keyword classification of `_hierarchical_decomposition`. -/
def isObbyRequest (user_request : String) : Bool :=
  let request_lower := strLower user_request
  strContains request_lower "obby" || strContains request_lower "obstacle course" ||
    strContains request_lower "parkour"

/-- The tycoon-keyword classification of `_hierarchical_decomposition`. -/
def isTycoonRequest (user_request : String) : Bool :=
  strContains (strLower user_request) "tycoon"

/-- The building-keyword classification of `_hierarchical_decomposition`. -/
def isBuildingRequest (user_request : String) : Bool :=
  let request_lower := strLower user_request
  strContains request_lower "build" || strContains request_lower "house" ||
    strContains request_lower "tower" || strContains request_lower "shop" ||
    strContains request_lower "map"

/-- The script-keyword classification of `_hierarchical_decomposition`. -/
def isScriptRequest (user_request : String) : Bool :=
  let request_lower := strLower user_request
  (strContains request_lower "script" || strContains request_lower "code" ||
    strContains request_lower "system") && strContains request_lower "create"

/-- Embeds `_hierarchical_decomposition` (first matching pattern wins). -/
def hierarchical_decomposition (gemini : String → String)
    (extract : String → Option Json) (user_request : String) (analysis : Json)
    (context : String) : Except String (List Task) :=
  if isObbyRequest user_request then plan_obby user_request analysis
  else if isTycoonRequest user_request then .ok (plan_tycoon user_request analysis)
  else if isBuildingRequest user_request then .ok (plan_building user_request analysis)
  else if isScriptRequest user_request then .ok (plan_script_system gemini user_request analysis)
  else .ok (plan_with_ai gemini extract user_request analysis context)

/-- Embeds `AdvancedPlanner.create_advanced_plan`: chain-of-thought analysis, then
hierarchical decomposition. -/
def create_advanced_plan (gemini : String → String) (extract : String → Option Json)
    (user_request context : String) : Except String (List Task) :=
  let analysis := analyze_request_with_cot gemini extract user_request
  hierarchical_decomposition gemini extract user_request analysis context

/-! ## MCPClient dispatch (`src/backend/mcp_client.py`) -/

/-- Oracle for the remote scene-manipulation service behind `MCPClient`'s per-tool
HTTP methods: tool name and params to the JSON payload of the response.  The HTTP
methods catch request and decoding errors and return `\x7b'error': ...\x7d` dicts
themselves, so a faithful oracle is total on well-formed params; the `Except`
channel keeps Python's possibility of an attribute error on malformed params.
The per-tool marshalling of `params` into an HTTP body is absorbed into the
oracle. -/
def Remote := String → Json → Except String Json

/-- The keys of `tool_map` in `MCPClient.call_tool`. -/
def callToolNames : List String :=
  ["create_object", "create_object_with_properties",
   "mass_create_objects_with_properties", "set_property", "mass_set_property",
   "get_instance_properties", "get_instance_children", "search_objects",
   "get_file_tree", "delete_object", "get_script_source", "set_script_source"]

/-- Embeds `MCPClient.call_tool`: dispatch through `tool_map`; an unknown tool gets
an error payload, not an exception. -/
def call_tool (remote : Remote) (tool_name : String) (params : Json) :
    Except String Json :=
  if callToolNames.contains tool_name then remote tool_name params
  else .ok (.obj [("error", .str ("Unknown tool: " ++ tool_name))])

/-! ## ExecutionEngine (`src/backend/execution_engine.py`) -/

/-- Conversion of a remote call outcome into the `(success, result, error_msg)`
triple `_execute_task` produces around each `call_tool` invocation (an exception is
caught by its `except` clause into `(False, None, str(e))`). -/
def execRes : Except String Json → Bool × Json × String
  | .ok r => (true, r, "")
  | .error e => (false, .null, e)

/-- Embeds `ExecutionEngine._execute_task`: the task-kind dispatch.  Note that every
dispatched branch returns success whatever payload the call produced. -/
def execute_task_inner (remote : Remote) (task_type : String) (params : Json) :
    Bool × Json × String :=
  if task_type = "create_object" then
    execRes (call_tool remote "create_object" params)
  else if task_type = "create_object_with_properties" then
    execRes (call_tool remote "create_object_with_properties" params)
  else if task_type = "mass_create_objects_with_properties" then
    execRes (call_tool remote "mass_create_objects_with_properties" params)
  else if task_type = "set_property" then
    execRes (call_tool remote "set_property" params)
  else if task_type = "mass_set_property" then
    execRes (call_tool remote "mass_set_property" params)
  else if task_type = "create_script" then
    let script_params : Json := .obj
      [("className", params.getD "script_type" (.str "Script")),
       ("parent", params.getD "parent_path" (.str "ServerScriptService")),
       ("name", params.getD "name" (.str "NewScript")),
       ("properties", .obj [("Source", params.getD "content" (.str "-- Empty script"))])]
    execRes (call_tool remote "create_object_with_properties" script_params)
  else if task_type = "get_instance_properties" then
    execRes (call_tool remote "get_instance_properties" params)
  else if task_type = "get_instance_children" then
    execRes (call_tool remote "get_instance_children" params)
  else if task_type = "search_objects" then
    execRes (call_tool remote "search_objects" params)
  else if task_type = "get_file_tree" then
    execRes (call_tool remote "get_file_tree" params)
  else if task_type = "delete_object" then
    execRes (call_tool remote "delete_object" params)
  else if task_type = "chat" then (true, params, "")
  else (false, .null, "Unknown task type: " ++ task_type)

/-- The `[0, 0, 0]` literal compared against the actual CFrame in `_verify_task`. -/
def origin3 : Json := .list [.num 0, .num 0, .num 0]

/-- The CFrame check loop of `_verify_task` over the expected properties: fails on
the first `CFrame` entry whose truthy actual value equals `[0,0,0]` while the
declared expected value does not. -/
def cframeOriginViolation (expected_fields : List (String × Json)) (result : Json) :
    Bool :=
  expected_fields.any fun kv =>
    kv.1 = "CFrame" && (result.getD kv.1 .null).truthy &&
      Json.beq (result.getD kv.1 .null) origin3 && !(Json.beq kv.2 origin3)

/-- The `children_list` extraction of the `get_instance_children` branch of
`_verify_task`: a dict payload is unwrapped through its `children` (or
`instances`) key. -/
def childrenListOf (result : Json) : Json :=
  if result.isObj then result.getD "children" (result.getD "instances" (.list []))
  else result

/-- Embeds `ExecutionEngine._verify_task`.  Python `None` and the message strings it
returns in place of a result value are both carried in the `Json` component.  A
truthy non-dict `properties` value would raise inside the loop in Python and be
caught by the surrounding `except` into `(True, None)`; the model returns that
outcome directly. -/
def verify_task (remote : Remote) (verify_tool : String) (verify_params : Json)
    (original_task : Task) : Bool × Json :=
  match call_tool remote verify_tool verify_params with
  | .error _ => (true, .null)
  | .ok result =>
    if result.isObj && result.hasKey "error" then (true, result)
    else if verify_tool = "get_instance_properties" then
      if result.truthy && result.isObj then
        match original_task.params.getD "properties" (.obj []) with
        | .obj expected_fields =>
          if !expected_fields.isEmpty && cframeOriginViolation expected_fields result
          then (false, .str "CFrame is at origin when it shouldn't be")
          else (true, result)
        | other => if other.truthy then (true, .null) else (true, result)
      else (false, .str "Object doesn't exist or has no properties")
    else if verify_tool = "get_instance_children" then
      if (childrenListOf result).truthy && (childrenListOf result).isList then
        match firstNat original_task.verify_condition with
        | some expected_count =>
          if (childrenListOf result).listLength < expected_count then (true, result)
          else (true, result)
        | none => (true, result)
      else (true, result)
    else if verify_tool = "get_file_tree" then (true, result)
    else (true, result)

/-- Embeds `ExecutionEngine.execute_task_with_verification` (without the history
append, which the source performs exactly when this method returns success and
which is modelled at the plan-loop level).  An empty-string `verify_with` is falsy
in Python and skips verification. -/
def execute_task_with_verification (remote : Remote) (task : Task) :
    Bool × Json × String :=
  let r := execute_task_inner remote task.type task.params
  if !r.1 then (false, r.2.1, "Execution failed: " ++ r.2.2)
  else
    match task.verify_with with
    | some verify_tool =>
      if verify_tool = "" then (true, r.2.1, "Success")
      else
        let v := verify_task remote verify_tool task.verify_params task
        if !v.1 then (false, v.2, "Verification failed")
        else (true, r.2.1, "Success")
    | none => (true, r.2.1, "Success")

/-- Engine retry bound (`self.max_retries = 3`, attempts per task including the
first). -/
def max_retries : ℕ := 3

/-- The safe default CFrame `[0, 5, 0]` of repair heuristic (a). -/
def safeCFrame : Json := .list [.num 0, .num 5, .num 0]

/-- The `essential` property whitelist of repair heuristic (c). -/
def essential_properties : List String := ["CFrame", "Size", "Anchored", "BrickColor"]

/-- Python `s.split('.')[0]`. -/
def splitDotHead (s : String) : String :=
  String.mk (s.toList.takeWhile (fun c => c ≠ '.'))

/-- The dict comprehension of repair heuristic (c): keep only whitelisted keys
(identity on the non-dict shapes where Python would raise; no verified claim
produces those). -/
def filterEssential : Json → Json
  | .obj fields => .obj (fields.filter (fun kv => essential_properties.contains kv.1))
  | j => j

/-- Heuristic (c) of `_attempt_fix` (the lowercased error text mentions
`type`/`invalid`): filter the properties down to the whitelist.  Like the other
heuristics it returns the Python return value together with the state of the
caller's task object after the call. -/
def attemptFix3 (task : Task) (error_message : String) : Option Task × Task :=
  if strContains (strLower error_message) "type" ||
      strContains (strLower error_message) "invalid" then
    if task.params.hasKey "properties" then
      let fixed := { task with params :=
        (task.params.setKey "properties"
          (filterEssential (task.params.getD "properties" .null))) }
      (some fixed, fixed)
    else (none, task)
  else (none, task)

/-- Heuristic (b) of `_attempt_fix` (the lowercased error text mentions
`parent`/`not found`): truncate a dotted parent path to its first segment;
otherwise fall through to heuristic (c).  A non-string parent never contains `'.'`
by Python membership and falls through likewise. -/
def attemptFix2 (task : Task) (error_message : String) : Option Task × Task :=
  if strContains (strLower error_message) "parent" ||
      strContains (strLower error_message) "not found" then
    match task.params.get "parent" with
    | some (.str parent) =>
      if strContains parent "." then
        let fixed := { task with params :=
          (task.params.setKey "parent" (.str (splitDotHead parent))) }
        (some fixed, fixed)
      else attemptFix3 task error_message
    | _ => attemptFix3 task error_message
  else attemptFix3 task error_message

/-- Embeds `_attempt_fix`, threading the in-place mutation of `task['params']`: the
first component is the Python return value (`None` when no heuristic fires), the
second the state of the caller's `task` object after the call.  Every `return task`
in the source follows a write through the `params` alias, and the `return None`
path performs no write.  Heuristic (a) fires when the raw error text mentions
`CFrame` or its lowercase mentions `position` and the properties hold a truthy
non-list CFrame. -/
def attemptFixPair (task : Task) (error_message : String) : Option Task × Task :=
  if strContains error_message "CFrame" ||
      strContains (strLower error_message) "position" then
    if task.params.hasKey "properties" then
      if ((task.params.getD "properties" .null).getD "CFrame" .null).truthy &&
          !((task.params.getD "properties" .null).getD "CFrame" .null).isList then
        let fixed := { task with params :=
          (task.params.setKey "properties"
            ((task.params.getD "properties" .null).setKey "CFrame" safeCFrame)) }
        (some fixed, fixed)
      else attemptFix2 task error_message
    else attemptFix2 task error_message
  else attemptFix2 task error_message

/-- The value `_attempt_fix` returns. -/
def attempt_fix (task : Task) (error_message : String) : Option Task :=
  (attemptFixPair task error_message).1

/-- The state of the caller's task object after `_attempt_fix` returns. -/
def attempt_fix_post (task : Task) (error_message : String) : Task :=
  (attemptFixPair task error_message).2

/-- One entry of `self.execution_history` (appended on each task success). -/
structure HistEntry where
  task : String
  type : String
  success : Bool
  result : Json

/-- Embeds `_is_critical_task`: the lowercased description mentions
`folder`/`structure`, or fewer than two successful tasks are in the engine
history. -/
def is_critical_task (task : Task) (history : List HistEntry) : Bool :=
  if strContains (strLower task.description) "folder" ||
      strContains (strLower task.description) "structure" then true
  else if history.length < 2 then true
  else false

/-- Outcome of the per-task retry loop: overall success, the result of the last
attempt, the last failure message, the task value after the repairs applied, and
the number of attempts performed. -/
structure RunResult where
  success : Bool
  result : Json
  lastError : String
  finalTask : Task
  attempts : ℕ

/-- The retry loop of `execute_plan_with_recovery` for one task: `remaining`
attempts are left; a repair is attempted only when another attempt remains
(`attempt < self.max_retries - 1`). -/
def runAttempts (remote : Remote) : ℕ → Task → String → RunResult
  | 0, task, last_error => ⟨false, .null, last_error, task, 0⟩
  | remaining + 1, task, _ =>
    let r := execute_task_with_verification remote task
    if r.1 then ⟨true, r.2.1, r.2.2, task, 1⟩
    else if remaining = 0 then ⟨false, r.2.1, r.2.2, task, 1⟩
    else
      let task' :=
        match attempt_fix task r.2.2 with
        | some fixed => fixed
        | none => task
      let out := runAttempts remote remaining task' r.2.2
      { out with attempts := out.attempts + 1 }

/-- One entry of the summary's `errors` list. -/
structure ErrEntry where
  task : String
  error : String
  task_index : ℕ
deriving DecidableEq

/-- The history entry appended on success (from inside
`execute_task_with_verification` in the source). -/
def mkHistEntry (task : Task) (result : Json) : HistEntry :=
  ⟨task.description, task.type, true, result⟩

/-- The task loop of `execute_plan_with_recovery`: processes tasks at increasing
indices, accumulating results, error entries, the completed count and the engine
history; a failed critical task stops the loop. -/
def planGo (remote : Remote) :
    List Task → ℕ → List HistEntry → List Json → List ErrEntry → ℕ →
    List Json × List ErrEntry × ℕ × List HistEntry
  | [], _, history, results, errors, completed => (results, errors, completed, history)
  | task :: rest, i, history, results, errors, completed =>
    let out := runAttempts remote max_retries task ""
    if out.success then
      planGo remote rest (i + 1) (history ++ [mkHistEntry out.finalTask out.result])
        (results ++ [out.result]) errors (completed + 1)
    else
      let errors' := errors ++ [⟨out.finalTask.description, out.lastError, i⟩]
      if is_critical_task out.finalTask history then (results, errors', completed, history)
      else planGo remote rest (i + 1) history results errors' completed

/-- The summary dict returned by `execute_plan_with_recovery`. -/
structure Summary where
  success : Bool
  completed_tasks : ℕ
  total_tasks : ℕ
  results : List Json
  errors : List ErrEntry

/-- Embeds `ExecutionEngine.execute_plan_with_recovery`, run from engine history
state `history0` (`[]` for a freshly constructed engine). -/
def execute_plan_with_recovery (remote : Remote) (history0 : List HistEntry)
    (tasks : List Task) : Summary :=
  match planGo remote tasks 0 history0 [] [] 0 with
  | (results, errors, completed, _) =>
    ⟨completed == tasks.length, completed, tasks.length, results, errors⟩

/-! ## Derived checks and concrete instances used by the claim theorems -/

/-- Boolean check: a CFrame value carries exactly the identity orientation. -/
def orientationIsIdentity (cf : Json) : Bool :=
  match cf.get "orientation" with
  | some o => Json.beq o identityOrientation
  | none => false

/-- Boolean check: an ObjectSpec's pose (under `properties.CFrame`) carries exactly
the identity orientation. -/
def specOrientationIsIdentity (spec : Json) : Bool :=
  match (spec.get "properties").bind (·.get "CFrame") with
  | some cf => orientationIsIdentity cf
  | none => false

/-- The task kinds of `_execute_task` that dispatch the task's own `params`
unchanged to the remote tool of the same name (all kinds except `create_script`,
`chat` and the unknown-kind failure). -/
def directDispatchTypes : List String :=
  ["create_object", "create_object_with_properties",
   "mass_create_objects_with_properties", "set_property", "mass_set_property",
   "get_instance_properties", "get_instance_children", "search_objects",
   "get_file_tree", "delete_object"]

/-- A remote whose every payload carries an `error` field. -/
def errRemote : Remote := fun _ _ => .ok (.obj [("error", .str "boom")])

/-- A remote whose every call raises (deterministic failure). -/
def failRemote : Remote := fun _ _ => .error "boom"

/-- A remote that answers every call with an empty dict. -/
def emptyObjRemote : Remote := fun _ _ => .ok (.obj [])

/-- A plain creation task without verification. -/
def createTask : Task :=
  { type := "create_object"
    description := "Create part"
    params := .obj [("className", .str "Part")] }

/-- A creation task that declares verification with a non-origin expected CFrame. -/
def tExpectPose : Task :=
  { type := "create_object_with_properties"
    description := "Create positioned part"
    params := .obj [("className", .str "Part"),
      ("properties", .obj [("CFrame", .list [.num 1, .num 2, .num 3])])]
    verify_with := some "get_instance_properties"
    verify_params := .obj [("path", .str "game.Workspace.Part")] }

/-- A task whose properties hold an unparsed (string) CFrame, the shape repair
heuristic (a) rewrites. -/
def tBadCFrame : Task :=
  { type := "create_object_with_properties"
    description := "Create positioned part"
    params := .obj [("properties", .obj [("CFrame", .str "bad")])] }

/-- The value of `tBadCFrame` after repair heuristic (a) replaced its CFrame. -/
def tBadCFrameFixed : Task :=
  { type := "create_object_with_properties"
    description := "Create positioned part"
    params := .obj [("properties", .obj [("CFrame", safeCFrame)])] }

/-- A chat task (always succeeds without any remote call). -/
def chatT : Task :=
  { type := "chat"
    description := "say hi"
    params := .obj [("a", .str "b")] }

/-- A task that fails under `failRemote` and whose description mentions `folder`. -/
def folderFail : Task :=
  { type := "create_object"
    description := "Create folder X" }

/-- A task that fails under `failRemote` with neither criticality marker. -/
def plainFail : Task :=
  { type := "create_object"
    description := "Create part Y" }

/-! ## Claim theorems: SpatialEngine (C6, C7, C10) -/

/-- C6 counterexample: in `calculate_obby_platforms(10, 'hard')` the claimed values
`pose[1].z = −4` and `pose[3].y = pose[0].y + y_step (= 9)` are both false on the
code: the z sign at odd index 1 is `+1` (the source subtracts z_spacing at even
indices and adds it at odd ones), giving `pose[1].z = 4`; and `pose[3].y = 7`, not
`9`, because index 1 had already lowered y by `y_step // 2` before index 3 raised
it by `y_step`. -/
theorem C6_counterexample :
    coordOf (calculate_obby_platforms 10 "hard") 1 2 = some 4 ∧
    coordOf (calculate_obby_platforms 10 "hard") 1 2 ≠ some (-4) ∧
    coordOf (calculate_obby_platforms 10 "hard") 0 1 = some 5 ∧
    coordOf (calculate_obby_platforms 10 "hard") 3 1 = some 7 ∧
    coordOf (calculate_obby_platforms 10 "hard") 3 1 ≠ some 9 := by
  refine ⟨rfl, ?_, rfl, rfl, ?_⟩
  · have h : coordOf (calculate_obby_platforms 10 "hard") 1 2 = some 4 := rfl
    rw [h]; simp; norm_num
  · have h : coordOf (calculate_obby_platforms 10 "hard") 3 1 = some 7 := rfl
    rw [h]; simp

/-- C6 amended: `calculate_obby_platforms(10, 'hard')` returns 10 poses with
pose[0] = (0,5,0), pose[1].x = 12, pose[1].z = +4 (the recurrence adds z_spacing at
odd indices and subtracts it at even ones), and pose[3].y = 7 = pose[2].y + y_step
(index 3 ≡ 0 mod 3 raises y from its current value, which index 1 ≡ 1 mod 3 had
already lowered by y_step // 2); x advances by x_spacing = 12 at every step, as the
full coordinate tables below show. -/
theorem C6_theorem :
    (calculate_obby_platforms 10 "hard").length = 10 ∧
    posOf (calculate_obby_platforms 10 "hard") 0 =
      some (.list [.num 0, .num 5, .num 0]) ∧
    (List.range 10).map (fun i => coordOf (calculate_obby_platforms 10 "hard") i 0)
      = [some 0, some 12, some 24, some 36, some 48,
         some 60, some 72, some 84, some 96, some 108] ∧
    (List.range 10).map (fun i => coordOf (calculate_obby_platforms 10 "hard") i 1)
      = [some 5, some 3, some 3, some 7, some 5,
         some 5, some 9, some 7, some 7, some 11] ∧
    (List.range 10).map (fun i => coordOf (calculate_obby_platforms 10 "hard") i 2)
      = [some 0, some 4, some 0, some 4, some 0,
         some 4, some 0, some 4, some 0, some 4] :=
  ⟨rfl, rfl, rfl, rfl, rfl⟩

/-- C7 counterexample: a non-positive requested count does not raise
`InvalidParameterError` (no such exception exists anywhere in the source);
`calculate_obby_platforms` just returns the empty list, through its normal return
path, for count 0 and for negative counts. -/
theorem C7_counterexample :
    calculate_obby_platforms 0 "medium" = [] ∧
    calculate_obby_platforms (-3) "hard" = [] := ⟨rfl, rfl⟩

/-- C7 amended: the linear-obstacle-course layout never raises at all: a
non-positive count yields the empty list (the loop body runs zero times), and an
unrecognized difficulty key falls back to the medium default settings. -/
theorem C7_theorem :
    (∀ (n : ℤ) (d : String), n ≤ 0 → calculate_obby_platforms n d = []) ∧
    (∀ (n : ℤ) (d : String), d ≠ "easy" → d ≠ "medium" → d ≠ "hard" →
      calculate_obby_platforms n d = calculate_obby_platforms n "medium") := by
  constructor
  · intro n d hn
    unfold calculate_obby_platforms
    rw [Int.toNat_of_nonpos hn]
    rfl
  · intro n d h1 h2 h3
    unfold calculate_obby_platforms
    have hset : obbySettings d = obbySettings "medium" := by
      unfold obbySettings
      simp [h1, h2, h3]
    rw [hset]

/-- C7 witness: the amended theorem applied at count −2 / count 4 with the
unrecognized difficulty key `weird`. -/
theorem C7_witness :
    calculate_obby_platforms (-2) "weird" = [] ∧
    calculate_obby_platforms 4 "weird" = calculate_obby_platforms 4 "medium" :=
  ⟨C7_theorem.1 (-2) "weird" (by decide),
   C7_theorem.2 4 "weird" (by decide) (by decide) (by decide)⟩

/-- Helper: `vector3_to_cframe` always carries the identity orientation. -/
theorem vector3_to_cframe_orientation (x y z : ℚ) :
    orientationIsIdentity (vector3_to_cframe x y z) = true := rfl

/-- Helper: platform specs carry the identity orientation. -/
theorem platformSpec_orientation (config : DiffConfig) (i : ℕ) (p : ℤ × ℤ × ℤ) :
    specOrientationIsIdentity (platformSpec config i p) = true := by
  obtain ⟨x, y, z⟩ := p
  rfl

/-- Helper: every element of the obby loop output passes the orientation check. -/
theorem obbyGo_orientation (config : DiffConfig) :
    ∀ (fuel i : ℕ) (pos : ℤ × ℤ × ℤ),
      (obbyGo config fuel i pos).all specOrientationIsIdentity = true := by
  intro fuel
  induction fuel with
  | zero => intro i pos; rfl
  | succ n ih =>
    intro i pos
    simp only [obbyGo, List.all_cons, Bool.and_eq_true]
    exact ⟨platformSpec_orientation _ _ _, ih _ _⟩

/-- Helper: house parts carry the identity orientation. -/
theorem create_house_orientation (size : String) :
    (create_house size).all specOrientationIsIdentity = true := by
  unfold create_house
  rfl

/-- Helper: tower floors carry the identity orientation. -/
theorem create_tower_orientation (size : String) :
    (create_tower size).all specOrientationIsIdentity = true := by
  unfold create_tower
  rw [List.all_eq_true]
  intro spec hspec
  obtain ⟨i, _, rfl⟩ := List.mem_map.1 hspec
  rfl

/-- C10: every pose produced by any SpatialEngine layout function — obby
platforms, grid, circle, staircase, buildings (house, tower, shop or the empty
fallback), path points, and the spawn location — carries exactly the identity 3x3
rotation matrix as its orientation (`List.all` over the produced collection; the
spawn location is a single CFrame). -/
theorem C10_theorem :
    (∀ (n : ℤ) (d : String),
      (calculate_obby_platforms n d).all specOrientationIsIdentity = true) ∧
    (∀ (n : ℕ) (sz : Vec3) (sp : ℚ),
      (calculate_grid_layout n sz sp).all orientationIsIdentity = true) ∧
    (∀ (cosF sinF : ℚ → ℚ) (piQ : ℚ) (n : ℕ) (r h : ℚ),
      (calculate_circular_layout cosF sinF piQ n r h).all orientationIsIdentity = true) ∧
    (∀ (n : ℕ) (sz : Vec3) (rise run : ℚ),
      (calculate_staircase n sz rise run).all specOrientationIsIdentity = true) ∧
    (∀ (bt sz : String),
      (calculate_building_layout bt sz).all specOrientationIsIdentity = true) ∧
    (∀ (sinF : ℚ → ℚ) (piQ : ℚ) (a b : Vec3) (n : ℕ) (curve : ℚ),
      (calculate_path_points sinF piQ a b n curve).all orientationIsIdentity = true) ∧
    (∀ (cf size : Json),
      orientationIsIdentity (get_spawn_location cf size) = true) := by
  refine ⟨?_, ?_, ?_, ?_, ?_, ?_, ?_⟩
  · intro n d
    exact obbyGo_orientation (obbySettings d) n.toNat 0 (0, 5, 0)
  · intro n sz sp
    unfold calculate_grid_layout
    rw [List.all_eq_true]
    intro cf hcf
    obtain ⟨i, _, rfl⟩ := List.mem_map.1 hcf
    rfl
  · intro cosF sinF piQ n r h
    unfold calculate_circular_layout
    rw [List.all_eq_true]
    intro cf hcf
    obtain ⟨i, _, rfl⟩ := List.mem_map.1 hcf
    rfl
  · intro n sz rise run
    unfold calculate_staircase
    rw [List.all_eq_true]
    intro spec hspec
    obtain ⟨i, _, rfl⟩ := List.mem_map.1 hspec
    rfl
  · intro bt sz
    unfold calculate_building_layout
    split
    · exact create_house_orientation sz
    · split
      · exact create_tower_orientation sz
      · split
        · exact create_house_orientation sz
        · rfl
  · intro sinF piQ a b n curve
    unfold calculate_path_points
    rw [List.all_eq_true]
    intro cf hcf
    obtain ⟨i, _, rfl⟩ := List.mem_map.1 hcf
    simp only []
    split <;> rfl
  · intro cf size
    unfold get_spawn_location
    split <;> rfl

/-! ## Claim theorems: AdvancedPlanner (C5, C8) -/

set_option maxRecDepth 4000 in
/-- Helper: fetching the checkpoint template raises `IndexError`, because
`get_template` applies `str.format()` with no arguments to a template whose first
replacement field is the literal Lua table constructor braces. -/
theorem get_template_checkpoint_raises :
    get_template "checkpoint_system" = .error formatIndexError := rfl

set_option maxRecDepth 8000 in
/-- C5 counterexample: for the goal `build a 5 platform easy obby` the Planner does
not return any task list at all: `_plan_obby` raises `IndexError` out of
`get_template('checkpoint_system')` (whose `str.format()` call chokes on the
template's literal braces) while building task 5, and `create_advanced_plan`
propagates the exception. -/
theorem C5_counterexample :
    plan_obby "build a 5 platform easy obby" .null = .error formatIndexError ∧
    create_advanced_plan (fun _ => "") (fun _ => none)
      "build a 5 platform easy obby" "" = .error formatIndexError :=
  ⟨rfl, rfl⟩

set_option maxRecDepth 8000 in
/-- C5 amended: for the goal `build a 5 platform easy obby` the Planner raises
`IndexError` at the checkpoint-script template fetch instead of returning a plan;
the four tasks it assembles before the raise are, in order: (a) the
checkpoints-container create task, (b) one bulk-create task whose `objects` field
is the 5 calculated platform specs, (c) the spawn-point task whose CFrame is
computed by the spawn-above calculation from platform 0's pose (0,5,0) — giving
(0,8,0), not re-fetched from the remote service — and (d) the organizational move
task; the script task, which would carry the checkpoint template, would only come
fifth. -/
theorem C5_theorem :
    plan_obby "build a 5 platform easy obby" .null = .error formatIndexError ∧
    plan_obby_prefix "build a 5 platform easy obby" =
      .ok [obbyTask1,
           obbyTask2 5 (calculate_obby_platforms 5 "easy"),
           obbyTask3 (get_spawn_location (vector3_to_cframe 0 5 0)
             (.list [.num 8, .num 1, .num 8])),
           obbyTask4 5] ∧
    (calculate_obby_platforms 5 "easy").length = 5 ∧
    get_spawn_location (vector3_to_cframe 0 5 0) (.list [.num 8, .num 1, .num 8]) =
      vector3_to_cframe 0 8 0 ∧
    (obbyTask2 5 (calculate_obby_platforms 5 "easy")).type =
      "mass_create_objects_with_properties" ∧
    ((obbyTask2 5 (calculate_obby_platforms 5 "easy")).params.getD "objects" .null).listLength
      = 5 ∧
    (obbyTask4 5).type = "move_to_folder" ∧
    (obbyTask5 (some checkpoint_system_template)).type = "create_script" := by
  refine ⟨rfl, ?_, rfl, ?_, rfl, rfl, rfl, rfl⟩
  · rfl
  · unfold get_spawn_location vector3_to_cframe
    simp only [Json.isObj, Json.hasKey, Json.get, objFind]
    norm_num [Json.getD, Json.get, objFind, Json.idx, Json.asNum]

/-- Helper: `_plan_obby` raises an `IndexError` for every request (either the empty
platform list is indexed, or the template `str.format()` raises). -/
theorem plan_obby_always_raises (r : String) (a : Json) :
    ∃ e, plan_obby r a = .error e ∧ strContains e "IndexError" = true := by
  unfold plan_obby plan_obby_prefix
  cases hc : calculate_obby_platforms (extract_num_platforms r) (extract_difficulty r) with
  | nil =>
    refine ⟨"IndexError: list index out of range", ?_, by decide⟩
    simp only [hc]
  | cons c0 rest =>
    refine ⟨formatIndexError, ?_, by decide⟩
    simp only [hc, get_template_checkpoint_raises]

/-- C8 corrected: `create_advanced_plan` does return a plan without raising on
every non-obby goal — and when the generic AI path is taken with an extraction
oracle that never yields anything, it degrades to the single trivial chat task —
but every obby-classified goal raises `IndexError` (the checkpoint-template
`str.format()` bug; with an extracted platform count of 0 the raise comes earlier,
from indexing the empty platform list). -/
theorem C8_theorem (gemini : String → String) (extract : String → Option Json)
    (user_request context : String) :
    (isObbyRequest user_request = false →
      ∃ ts, create_advanced_plan gemini extract user_request context = .ok ts) ∧
    (isObbyRequest user_request = true →
      ∃ e, create_advanced_plan gemini extract user_request context = .error e ∧
        strContains e "IndexError" = true) ∧
    (isObbyRequest user_request = false → isTycoonRequest user_request = false →
      isBuildingRequest user_request = false → isScriptRequest user_request = false →
      (∀ s, extract s = none) →
      create_advanced_plan gemini extract user_request context =
        .ok [chatFallbackTask]) := by
  refine ⟨?_, ?_, ?_⟩
  · intro hobby
    unfold create_advanced_plan hierarchical_decomposition
    rw [hobby]
    simp only [Bool.false_eq_true, if_false]
    split
    · exact ⟨_, rfl⟩
    · split
      · exact ⟨_, rfl⟩
      · split
        · exact ⟨_, rfl⟩
        · exact ⟨_, rfl⟩
  · intro hobby
    unfold create_advanced_plan hierarchical_decomposition
    rw [hobby]
    simp only [if_true]
    exact plan_obby_always_raises user_request _
  · intro hobby htycoon hbuild hscript hextract
    unfold create_advanced_plan hierarchical_decomposition
    rw [hobby, htycoon, hbuild, hscript]
    simp only [Bool.false_eq_true, if_false]
    unfold plan_with_ai planWithAiAttempt
    simp only [hextract]

set_option maxRecDepth 8000 in
/-- C8 counterexample: at the concrete goal `build a 5 platform easy obby` (with
arbitrary concrete oracles) `create_advanced_plan` raises `IndexError` to its
caller instead of degrading. -/
theorem C8_counterexample :
    create_advanced_plan (fun _ => "x") (fun _ => none)
      "build a 5 platform easy obby" "ctx" = .error formatIndexError := rfl

set_option maxRecDepth 8000 in
/-- C8 witness: the amended characterization applied to a non-obby goal (yielding
the chat fallback) and to the obby goal `make me an obby` (yielding an
`IndexError`). -/
theorem C8_witness :
    (create_advanced_plan (fun _ => "y") (fun _ => none) "hello there" "c" =
      .ok [chatFallbackTask]) ∧
    (∃ e, create_advanced_plan (fun _ => "y") (fun _ => none) "make me an obby" "c"
      = .error e ∧ strContains e "IndexError" = true) :=
  ⟨(C8_theorem (fun _ => "y") (fun _ => none) "hello there" "c").2.2
      (by decide) (by decide) (by decide) (by decide) (fun _ => rfl),
   (C8_theorem (fun _ => "y") (fun _ => none) "make me an obby" "c").2.1 (by decide)⟩

/-! ## Claim theorems: ExecutionEngine (C1, C2, C4, C9) -/

/-- Helper: one unrolling of the retry loop. -/
theorem runAttempts_step (remote : Remote) (n : ℕ) (t : Task) (e : String) :
    runAttempts remote (n + 1) t e =
      (let r := execute_task_with_verification remote t
       if r.1 then ⟨true, r.2.1, r.2.2, t, 1⟩
       else if n = 0 then ⟨false, r.2.1, r.2.2, t, 1⟩
       else
         let task' := match attempt_fix t r.2.2 with | some fixed => fixed | none => t
         let out := runAttempts remote n task' r.2.2
         { out with attempts := out.attempts + 1 }) := rfl

/-- C1 amended: the ExecutionEngine never inspects the payload for an `error`
field: for every task of a directly dispatched kind without verification, whatever
payload the remote call returns — in particular one carrying `error` — the attempt
succeeds, the payload lands in `results` and no error entry is recorded. -/
theorem C1_theorem (remote : Remote) (task : Task) (j : Json)
    (htype : task.type ∈ directDispatchTypes)
    (hverify : task.verify_with = none)
    (hremote : remote task.type task.params = .ok j)
    (_herr : j.hasKey "error" = true) :
    execute_task_with_verification remote task = (true, j, "Success") ∧
    (execute_plan_with_recovery remote [] [task]).results = [j] ∧
    (execute_plan_with_recovery remote [] [task]).errors = [] := by
  have hcall : execute_task_inner remote task.type task.params
      = execRes (remote task.type task.params) := by
    simp only [directDispatchTypes, List.mem_cons, List.mem_singleton,
      List.not_mem_nil, or_false] at htype
    rcases htype with h|h|h|h|h|h|h|h|h|h <;> rw [h] <;> rfl
  have hexec : execute_task_with_verification remote task = (true, j, "Success") := by
    unfold execute_task_with_verification
    rw [hcall, hremote, hverify]
    rfl
  have hrun : runAttempts remote max_retries task "" = ⟨true, j, "Success", task, 1⟩ := by
    rw [show max_retries = 2 + 1 from rfl, runAttempts_step]
    simp only [hexec]
    rfl
  refine ⟨hexec, ?_, ?_⟩ <;>
    simp [execute_plan_with_recovery, planGo, hrun]

/-- C2 amended: verification hard-fails in exactly two cases, both under the
`get_instance_properties` tool: the payload is falsy or not a dict ("object
doesn't exist"), or the actual CFrame is the origin default while the declared
expected CFrame is not; every other verification outcome — error payloads,
exceptions from the verification call itself, child-count shortfalls, unknown
tools — passes. -/
theorem C2_theorem (remote : Remote) (verify_tool : String) (verify_params : Json)
    (task : Task)
    (hfail : (verify_task remote verify_tool verify_params task).1 = false) :
    verify_tool = "get_instance_properties" ∧
    ((verify_task remote verify_tool verify_params task).2 =
        .str "Object doesn't exist or has no properties" ∨
      (verify_task remote verify_tool verify_params task).2 =
        .str "CFrame is at origin when it shouldn't be") := by
  rcases hv : verify_task remote verify_tool verify_params task with ⟨b, res⟩
  rw [hv] at hfail
  have hb : b = false := hfail
  subst hb
  unfold verify_task at hv
  repeat' split at hv
  all_goals simp_all

/-- Helper: heuristic (c) either returns `None` leaving the task object
untouched, or returns the very object it mutated, never changing `type` or
`description`. -/
theorem attemptFix3_spec (t : Task) (e : String) :
    attemptFix3 t e = (none, t) ∨
      ∃ t', attemptFix3 t e = (some t', t') ∧ t'.type = t.type ∧
        t'.description = t.description := by
  unfold attemptFix3
  split
  · split
    · exact Or.inr ⟨{ t with params :=
        (t.params.setKey "properties"
          (filterEssential (t.params.getD "properties" .null))) }, rfl, rfl, rfl⟩
    · exact Or.inl rfl
  · exact Or.inl rfl

/-- Helper: heuristic (b) has the same mutation shape. -/
theorem attemptFix2_spec (t : Task) (e : String) :
    attemptFix2 t e = (none, t) ∨
      ∃ t', attemptFix2 t e = (some t', t') ∧ t'.type = t.type ∧
        t'.description = t.description := by
  unfold attemptFix2
  split
  · split
    · split
      · exact Or.inr ⟨_, rfl, rfl, rfl⟩
      · exact attemptFix3_spec t e
    · exact attemptFix3_spec t e
  · exact attemptFix3_spec t e

/-- Helper: `_attempt_fix` as a whole either performs no write and returns
`None`, or returns exactly the object it mutated, preserving `type` and
`description`. -/
theorem attemptFixPair_spec (t : Task) (e : String) :
    attemptFixPair t e = (none, t) ∨
      ∃ t', attemptFixPair t e = (some t', t') ∧ t'.type = t.type ∧
        t'.description = t.description := by
  unfold attemptFixPair
  split
  · split
    · split
      · exact Or.inr ⟨{ t with params :=
          (t.params.setKey "properties"
            ((t.params.getD "properties" .null).setKey "CFrame" safeCFrame)) },
          rfl, rfl, rfl⟩
      · exact attemptFix2_spec t e
    · exact attemptFix2_spec t e
  · exact attemptFix2_spec t e

/-- Helper: repairs preserve the task's `type` and `description`. -/
theorem attempt_fix_preserves (t : Task) (e : String) (t' : Task)
    (h : attempt_fix t e = some t') :
    t'.type = t.type ∧ t'.description = t.description := by
  unfold attempt_fix at h
  rcases attemptFixPair_spec t e with hs | ⟨t'', hs, h1, h2⟩
  · rw [hs] at h
    cases h
  · rw [hs] at h
    cases h
    exact ⟨h1, h2⟩

/-- Helper: when every task of the given type fails under the remote, the retry
loop performs exactly `n` executions, fails overall, and its final task keeps the
type and description (repairs never change them). -/
theorem runAttempts_all_fail (remote : Remote) (ty de : String)
    (hfail : ∀ t' : Task, t'.type = ty →
      (execute_task_with_verification remote t').1 = false) :
    ∀ (n : ℕ) (t : Task) (e : String), t.type = ty → t.description = de →
      (runAttempts remote n t e).attempts = n ∧
      (runAttempts remote n t e).success = false ∧
      (runAttempts remote n t e).finalTask.type = ty ∧
      (runAttempts remote n t e).finalTask.description = de := by
  intro n
  induction n with
  | zero => exact fun t e ht hd => ⟨rfl, rfl, ht, hd⟩
  | succ m ih =>
    intro t e ht hd
    have hf := hfail t ht
    simp only [runAttempts_step, hf, Bool.false_eq_true, if_false]
    by_cases hm : m = 0
    · subst hm
      simp only [if_pos rfl]
      exact ⟨rfl, rfl, ht, hd⟩
    · rw [if_neg hm]
      rcases hfix : attempt_fix t (execute_task_with_verification remote t).2.2
        with _ | t'
      · simp only [hfix]
        have := ih t (execute_task_with_verification remote t).2.2 ht hd
        exact ⟨by rw [this.1], this.2.1, this.2.2⟩
      · obtain ⟨hty, hde⟩ := attempt_fix_preserves t _ t' hfix
        simp only [hfix]
        have := ih t' (execute_task_with_verification remote t).2.2
          (hty.trans ht) (hde.trans hd)
        exact ⟨by rw [this.1], this.2.1, this.2.2⟩

/-- C4: for a task whose execution fails deterministically on every attempt
(every task of its kind fails under the remote — repairs cannot change the kind),
the engine makes exactly 3 attempts (`max_retries`, counting the first) and the
single-task plan summary records exactly one error entry and completes nothing. -/
theorem C4_theorem (remote : Remote) (t : Task)
    (hfail : ∀ t' : Task, t'.type = t.type →
      (execute_task_with_verification remote t').1 = false) :
    (runAttempts remote max_retries t "").attempts = 3 ∧
    (runAttempts remote max_retries t "").success = false ∧
    (execute_plan_with_recovery remote [] [t]).errors.length = 1 ∧
    (execute_plan_with_recovery remote [] [t]).completed_tasks = 0 := by
  obtain ⟨ha, hs, -, -⟩ :=
    runAttempts_all_fail remote t.type t.description hfail max_retries t "" rfl rfl
  refine ⟨ha, hs, ?_, ?_⟩ <;>
    simp [execute_plan_with_recovery, planGo, hs]

/-- C4 witness: the theorem applied to `createTask` under the always-raising
remote. -/
theorem C4_witness :
    (runAttempts failRemote max_retries createTask "").attempts = 3 ∧
    (runAttempts failRemote max_retries createTask "").success = false ∧
    (execute_plan_with_recovery failRemote [] [createTask]).errors.length = 1 ∧
    (execute_plan_with_recovery failRemote [] [createTask]).completed_tasks = 0 :=
  C4_theorem failRemote createTask (fun t' ht => by
    unfold execute_task_with_verification execute_task_inner
    rw [ht]
    rfl)

/-- C9 counterexample: the repair transformation does mutate the failed Task in
place: for a task whose properties hold an unparsed string CFrame and a
CFrame-mentioning error text, the caller's task object after `_attempt_fix` is not
the original — its params now hold the safe default CFrame — and the returned
"new" Task is exactly that mutated original. -/
theorem C9_counterexample :
    attempt_fix_post tBadCFrame "CFrame could not be parsed" ≠ tBadCFrame ∧
    attempt_fix tBadCFrame "CFrame could not be parsed" =
      some (attempt_fix_post tBadCFrame "CFrame could not be parsed") := by
  constructor
  · intro h
    have h3 : (Json.list [.num 0, .num 5, .num 0] : Json) = .str "bad" :=
      congrArg
        (fun t : Task => (t.params.getD "properties" .null).getD "CFrame" .null) h
    cases h3
  · rfl

/-- C9 amended: the repair transformation is not pure: it writes through the
task's `params` alias and returns the same object, so after the call the caller's
task object equals the repaired task whenever a repair was produced (and is
untouched exactly when `_attempt_fix` returns `None`) — the original attempt's
parameters are overwritten, not preserved. -/
theorem C9_theorem (t : Task) (e : String) :
    (∀ t', attempt_fix t e = some t' → attempt_fix_post t e = t') ∧
    (attempt_fix t e = none → attempt_fix_post t e = t) := by
  unfold attempt_fix attempt_fix_post
  rcases attemptFixPair_spec t e with h | ⟨t', h, _, _⟩
  · rw [h]
    exact ⟨(fun _ hc => nomatch hc), fun _ => rfl⟩
  · rw [h]
    refine ⟨fun t2 hc => ?_, (fun hc => nomatch hc)⟩
    cases hc
    rfl

/-- C9 witness: the amended theorem applied to the string-CFrame task: the
caller's object after the call is the repaired task. -/
theorem C9_witness :
    attempt_fix_post tBadCFrame "CFrame could not be parsed" = tBadCFrameFixed :=
  (C9_theorem tBadCFrame "CFrame could not be parsed").1 tBadCFrameFixed rfl

/-- C1 counterexample: with a remote whose every payload carries an `error` field,
a create task is treated as a success on the first attempt: the plan summary puts
the error payload into `results`, records no error entry, and reports plan
success — the opposite of the claim. -/
theorem C1_counterexample :
    (execute_plan_with_recovery errRemote [] [createTask]).results =
      [.obj [("error", .str "boom")]] ∧
    (execute_plan_with_recovery errRemote [] [createTask]).errors = [] ∧
    (execute_plan_with_recovery errRemote [] [createTask]).success = true :=
  ⟨rfl, rfl, rfl⟩

/-- C1 witness: the amended theorem applied to `createTask` under `errRemote`. -/
theorem C1_witness :
    execute_task_with_verification errRemote createTask =
      (true, .obj [("error", .str "boom")], "Success") ∧
    (execute_plan_with_recovery errRemote [] [createTask]).results =
      [.obj [("error", .str "boom")]] ∧
    (execute_plan_with_recovery errRemote [] [createTask]).errors = [] :=
  C1_theorem errRemote createTask (.obj [("error", .str "boom")])
    (by decide) rfl rfl rfl

/-- C2 counterexample: verification hard-fails in a second case the claim excludes:
a `get_instance_properties` verification whose payload is an empty dict (falsy, so
"object doesn't exist") fails the task even though the actual CFrame is not the
origin default — `tExpectPose` declares the non-origin expected CFrame `[1,2,3]`
and the payload has no CFrame at all. -/
theorem C2_counterexample :
    verify_task emptyObjRemote "get_instance_properties" (.obj []) tExpectPose =
      (false, .str "Object doesn't exist or has no properties") ∧
    execute_task_with_verification emptyObjRemote tExpectPose =
      (false, .str "Object doesn't exist or has no properties", "Verification failed") :=
  ⟨rfl, rfl⟩

/-- C2 witness: the amended theorem applied at the empty-payload instance. -/
theorem C2_witness :
    ("get_instance_properties" : String) = "get_instance_properties" ∧
    ((verify_task emptyObjRemote "get_instance_properties" (.obj []) tExpectPose).2 =
        .str "Object doesn't exist or has no properties" ∨
      (verify_task emptyObjRemote "get_instance_properties" (.obj []) tExpectPose).2 =
        .str "CFrame is at origin when it shouldn't be") :=
  C2_theorem emptyObjRemote "get_instance_properties" (.obj []) tExpectPose rfl


/-! ## Claim theorems: criticality and halting (C3) -/

/-- Helper: the retry loop never changes the task's description (repairs touch
only `params`). -/
theorem runAttempts_desc (remote : Remote) :
    ∀ (n : ℕ) (t : Task) (e : String),
      (runAttempts remote n t e).finalTask.description = t.description := by
  intro n
  induction n with
  | zero => intro t e; rfl
  | succ m ih =>
    intro t e
    simp only [runAttempts_step]
    by_cases hs : (execute_task_with_verification remote t).1 = true
    · simp only [if_pos hs]
    · simp only [if_neg hs]
      by_cases hm : m = 0
      · subst hm; rfl
      · rw [if_neg hm]
        rcases hfix : attempt_fix t (execute_task_with_verification remote t).2.2
          with _ | t'
        · simp only [hfix]
          exact ih t (execute_task_with_verification remote t).2.2
        · simp only [hfix]
          rw [ih t' (execute_task_with_verification remote t).2.2]
          exact (attempt_fix_preserves t _ t' hfix).2

/-- Helper: a non-critical verdict implies at least two entries in the engine
history. -/
theorem is_critical_false_hist (task : Task) (hist : List HistEntry)
    (h : is_critical_task task hist = false) : 2 ≤ hist.length := by
  unfold is_critical_task at h
  split at h
  · cases h
  · split at h
    · cases h
    · omega

/-- Helper: once a folder-marked task fails after its retries, the plan loop
stops there — tasks after it are never consulted, whatever state the loop reached
before it. -/
theorem planGo_halt (remote : Remote) (t : Task) (rest : List Task)
    (hfold : strContains (strLower t.description) "folder" = true)
    (hfail : (runAttempts remote max_retries t "").success = false) :
    ∀ (ts : List Task) (i : ℕ) (hist : List HistEntry) (res : List Json)
      (err : List ErrEntry) (c : ℕ),
      planGo remote (ts ++ t :: rest) i hist res err c =
        planGo remote (ts ++ [t]) i hist res err c := by
  have hcrit : ∀ hist : List HistEntry,
      is_critical_task (runAttempts remote max_retries t "").finalTask hist = true := by
    intro hist
    unfold is_critical_task
    rw [runAttempts_desc, hfold]
    simp
  intro ts
  induction ts with
  | nil =>
    intro i hist res err c
    simp only [List.nil_append, planGo]
    rw [hfail]
    simp only [Bool.false_eq_true, if_false, hcrit, if_true]
  | cons u ts' ih =>
    intro i hist res err c
    simp only [List.cons_append, planGo]
    by_cases hs : (runAttempts remote max_retries u "").success = true
    · simp only [if_pos hs]
      exact ih _ _ _ _ _
    · simp only [if_neg hs]
      by_cases hcr :
          is_critical_task (runAttempts remote max_retries u "").finalTask hist = true
      · simp only [if_pos hcr]
      · simp only [if_neg hcr]
        exact ih _ _ _ _ _

/-- Helper: every error entry of the plan loop is either pre-accumulated or
carries an index at least the current one. -/
theorem planGo_errors_mem (remote : Remote) :
    ∀ (ts : List Task) (i : ℕ) (hist : List HistEntry) (res : List Json)
      (err : List ErrEntry) (c : ℕ) (e : ErrEntry),
      e ∈ (planGo remote ts i hist res err c).2.1 → e ∈ err ∨ i ≤ e.task_index := by
  intro ts
  induction ts with
  | nil => intro i hist res err c e h; exact Or.inl h
  | cons u ts' ih =>
    intro i hist res err c e h
    simp only [planGo] at h
    by_cases hs : (runAttempts remote max_retries u "").success = true
    · rw [if_pos hs] at h
      rcases ih _ _ _ _ _ _ h with h1 | h1
      · exact Or.inl h1
      · exact Or.inr (by omega)
    · rw [if_neg hs] at h
      by_cases hcr :
          is_critical_task (runAttempts remote max_retries u "").finalTask hist = true
      · rw [if_pos hcr] at h
        rcases List.mem_append.1 h with h1 | h1
        · exact Or.inl h1
        · rcases List.mem_singleton.1 h1 with rfl
          exact Or.inr (le_refl _)
      · rw [if_neg hcr] at h
        rcases ih _ _ _ _ _ _ h with h1 | h1
        · rcases List.mem_append.1 h1 with h2 | h2
          · exact Or.inl h2
          · rcases List.mem_singleton.1 h2 with rfl
            exact Or.inr (le_refl _)
        · exact Or.inr (by omega)

/-- Helper: the combined count of results and error entries never decreases. -/
theorem planGo_total_mono (remote : Remote) :
    ∀ (ts : List Task) (i : ℕ) (hist : List HistEntry) (res : List Json)
      (err : List ErrEntry) (c : ℕ),
      res.length + err.length ≤
        (planGo remote ts i hist res err c).1.length +
        (planGo remote ts i hist res err c).2.1.length := by
  intro ts
  induction ts with
  | nil => intro i hist res err c; exact le_refl _
  | cons u ts' ih =>
    intro i hist res err c
    simp only [planGo]
    by_cases hs : (runAttempts remote max_retries u "").success = true
    · simp only [if_pos hs]
      have := ih (i + 1) (hist ++ [mkHistEntry (runAttempts remote max_retries u "").finalTask
        (runAttempts remote max_retries u "").result])
        (res ++ [(runAttempts remote max_retries u "").result]) err (c + 1)
      simp only [List.length_append, List.length_singleton] at this
      omega
    · simp only [if_neg hs]
      by_cases hcr :
          is_critical_task (runAttempts remote max_retries u "").finalTask hist = true
      · simp only [if_pos hcr, List.length_append, List.length_singleton]
        omega
      · simp only [if_neg hcr]
        have := ih (i + 1) hist res
          (err ++ [⟨(runAttempts remote max_retries u "").finalTask.description,
            (runAttempts remote max_retries u "").lastError, i⟩]) c
        simp only [List.length_append, List.length_singleton] at this
        omega

/-- Helper: processing a non-empty task list adds at least one result or error
entry. -/
theorem planGo_total_progress (remote : Remote) (u : Task) (ts : List Task)
    (i : ℕ) (hist : List HistEntry) (res : List Json) (err : List ErrEntry)
    (c : ℕ) :
    res.length + err.length + 1 ≤
      (planGo remote (u :: ts) i hist res err c).1.length +
      (planGo remote (u :: ts) i hist res err c).2.1.length := by
  simp only [planGo]
  by_cases hs : (runAttempts remote max_retries u "").success = true
  · simp only [if_pos hs]
    have := planGo_total_mono remote ts (i + 1)
      (hist ++ [mkHistEntry (runAttempts remote max_retries u "").finalTask
        (runAttempts remote max_retries u "").result])
      (res ++ [(runAttempts remote max_retries u "").result]) err (c + 1)
    simp only [List.length_append, List.length_singleton] at this
    omega
  · simp only [if_neg hs]
    by_cases hcr :
        is_critical_task (runAttempts remote max_retries u "").finalTask hist = true
    · simp only [if_pos hcr, List.length_append, List.length_singleton]
      omega
    · simp only [if_neg hcr]
      have := planGo_total_mono remote ts (i + 1) hist res
        (err ++ [⟨(runAttempts remote max_retries u "").finalTask.description,
          (runAttempts remote max_retries u "").lastError, i⟩]) c
      simp only [List.length_append, List.length_singleton] at this
      omega

/-- Helper, the heart of the continuation half of C3: if the loop (with the
history invariant `min i 2 ≤ |history|`, which holds along every run from a fresh
engine) records an unmarked error at index `i + k ≥ 2` while at least one more
task follows, then at least `k + 2` tasks get processed — i.e. some task after the
failing one still executes. -/
theorem planGo_noncritical_continues (remote : Remote) :
    ∀ (ts : List Task) (i : ℕ) (hist : List HistEntry) (res : List Json)
      (err : List ErrEntry) (c : ℕ) (e : ErrEntry) (k : ℕ),
      min i 2 ≤ hist.length →
      (∀ e' ∈ err, e'.task_index < i) →
      e ∈ (planGo remote ts i hist res err c).2.1 →
      e.task_index = i + k →
      2 ≤ e.task_index →
      strContains (strLower e.task) "folder" = false →
      strContains (strLower e.task) "structure" = false →
      k + 1 < ts.length →
      res.length + err.length + k + 2 ≤
        (planGo remote ts i hist res err c).1.length +
        (planGo remote ts i hist res err c).2.1.length := by
  intro ts
  induction ts with
  | nil =>
    intro i hist res err c e k hinv hold hmem hidx h2 hf hsrc hk
    exact absurd (hold e hmem) (by omega)
  | cons u ts' ih =>
    intro i hist res err c e k hinv hold hmem hidx h2 hf hsrc hk
    simp only [List.length_cons] at hk
    simp only [planGo] at hmem ⊢
    by_cases hs : (runAttempts remote max_retries u "").success = true
    · rw [if_pos hs] at hmem ⊢
      have hkpos : k ≠ 0 := by
        intro hk0
        subst hk0
        rcases planGo_errors_mem remote _ _ _ _ _ _ _ hmem with h1 | h1
        · exact absurd (hold e h1) (by omega)
        · omega
      obtain ⟨a, rfl⟩ : ∃ a, k = a + 1 := ⟨k - 1, by omega⟩
      have := ih (i + 1)
        (hist ++ [mkHistEntry (runAttempts remote max_retries u "").finalTask
          (runAttempts remote max_retries u "").result])
        (res ++ [(runAttempts remote max_retries u "").result]) err (c + 1) e a
        (by simp only [List.length_append, List.length_singleton]; omega)
        (fun e' he' => by have := hold e' he'; omega)
        hmem (by omega) h2 hf hsrc (by omega)
      simp only [List.length_append, List.length_singleton] at this
      omega
    · rw [if_neg hs] at hmem ⊢
      by_cases hcr :
          is_critical_task (runAttempts remote max_retries u "").finalTask hist = true
      · rw [if_pos hcr] at hmem ⊢
        rcases List.mem_append.1 hmem with h1 | h1
        · exact absurd (hold e h1) (by omega)
        · rcases List.mem_singleton.1 h1 with rfl
          exfalso
          have hidx' : i = i + k := hidx
          have h2' : 2 ≤ i := h2
          have hf' : strContains (strLower
            ((runAttempts remote max_retries u "").finalTask.description)) "folder"
              = false := hf
          have hsrc' : strContains (strLower
            ((runAttempts remote max_retries u "").finalTask.description)) "structure"
              = false := hsrc
          unfold is_critical_task at hcr
          rw [hf', hsrc'] at hcr
          simp only [Bool.or_false, Bool.false_eq_true, if_false] at hcr
          split at hcr
          · omega
          · cases hcr
      · rw [if_neg hcr] at hmem ⊢
        have hhist2 : 2 ≤ hist.length := is_critical_false_hist _ _ (by simpa using hcr)
        rcases Nat.eq_zero_or_pos k with hk0 | hkpos
        · subst hk0
          obtain ⟨v, ts'', rfl⟩ : ∃ v ts'', ts' = v :: ts'' := by
            cases ts' with
            | nil => simp at hk
            | cons v ts'' => exact ⟨v, ts'', rfl⟩
          have := planGo_total_progress remote v ts'' (i + 1) hist res
            (err ++ [⟨(runAttempts remote max_retries u "").finalTask.description,
              (runAttempts remote max_retries u "").lastError, i⟩]) c
          simp only [List.length_append, List.length_singleton] at this
          omega
        · obtain ⟨a, rfl⟩ : ∃ a, k = a + 1 := ⟨k - 1, by omega⟩
          have := ih (i + 1) hist res
            (err ++ [⟨(runAttempts remote max_retries u "").finalTask.description,
              (runAttempts remote max_retries u "").lastError, i⟩]) c e a
            (by omega)
            (fun e' he' => by
              rcases List.mem_append.1 he' with h1 | h1
              · have := hold e' h1; omega
              · rcases List.mem_singleton.1 h1 with rfl
                exact Nat.lt_succ_self i)
            hmem (by omega) h2 hf hsrc (by omega)
          simp only [List.length_append, List.length_singleton] at this
          omega

/-- Helper: the summary fields are the plan-loop components. -/
theorem summary_fields (remote : Remote) (hist0 : List HistEntry)
    (tasks : List Task) :
    (execute_plan_with_recovery remote hist0 tasks).results =
      (planGo remote tasks 0 hist0 [] [] 0).1 ∧
    (execute_plan_with_recovery remote hist0 tasks).errors =
      (planGo remote tasks 0 hist0 [] [] 0).2.1 ∧
    (execute_plan_with_recovery remote hist0 tasks).completed_tasks =
      (planGo remote tasks 0 hist0 [] [] 0).2.2.1 := by
  unfold execute_plan_with_recovery
  rcases planGo remote tasks 0 hist0 [] [] 0 with ⟨a, b, cc, d⟩
  exact ⟨rfl, rfl, rfl⟩

/-- C3: (halting half) if a task whose description contains `folder` fails after
all retries, execution halts: the summary of the full plan has exactly the
results, errors and completed count of the plan truncated right after that task,
so no task after it contributes to `results`.  (continuation half) If the summary
of a fresh-engine run records a failure at index `k ≥ 2` whose recorded
description mentions neither `folder` nor `structure`, and the plan has a task
after index `k`, then the total number of processed tasks (each processed task
contributes exactly one entry to `results` or `errors`) is at least `k + 2` — a
task after the failing one still executed. -/
theorem C3_theorem :
    (∀ (remote : Remote) (pre : List Task) (t : Task) (rest : List Task),
      strContains (strLower t.description) "folder" = true →
      (runAttempts remote max_retries t "").success = false →
      (execute_plan_with_recovery remote [] (pre ++ t :: rest)).results =
        (execute_plan_with_recovery remote [] (pre ++ [t])).results ∧
      (execute_plan_with_recovery remote [] (pre ++ t :: rest)).errors =
        (execute_plan_with_recovery remote [] (pre ++ [t])).errors ∧
      (execute_plan_with_recovery remote [] (pre ++ t :: rest)).completed_tasks =
        (execute_plan_with_recovery remote [] (pre ++ [t])).completed_tasks) ∧
    (∀ (remote : Remote) (tasks : List Task) (e : ErrEntry) (k : ℕ),
      e ∈ (execute_plan_with_recovery remote [] tasks).errors →
      e.task_index = k → 2 ≤ k →
      strContains (strLower e.task) "folder" = false →
      strContains (strLower e.task) "structure" = false →
      k + 1 < tasks.length →
      k + 2 ≤ (execute_plan_with_recovery remote [] tasks).results.length +
        (execute_plan_with_recovery remote [] tasks).errors.length) := by
  constructor
  · intro remote pre t rest hfold hfail
    obtain ⟨hr1, he1, hc1⟩ := summary_fields remote [] (pre ++ t :: rest)
    obtain ⟨hr2, he2, hc2⟩ := summary_fields remote [] (pre ++ [t])
    rw [hr1, he1, hc1, hr2, he2, hc2, planGo_halt remote t rest hfold hfail]
    exact ⟨rfl, rfl, rfl⟩
  · intro remote tasks e k hmem hidx h2 hf hsrc hk
    obtain ⟨hr, he, -⟩ := summary_fields remote [] tasks
    rw [hr, he]
    rw [he] at hmem
    subst hidx
    have := planGo_noncritical_continues remote tasks 0 [] [] [] 0 e e.task_index
      (by simp) (by simp) hmem (by omega) h2 hf hsrc hk
    simpa using this

/-- C3 witness: under the always-raising remote, a plan with a folder-failing
third task equals its truncation (nothing after the folder task runs), and a plan
whose unmarked third task fails still processes its fourth task (4 = 2 + 2
entries). -/
theorem C3_witness :
    ((execute_plan_with_recovery failRemote [] [chatT, chatT, folderFail, chatT]).results =
       (execute_plan_with_recovery failRemote [] [chatT, chatT, folderFail]).results ∧
     (execute_plan_with_recovery failRemote [] [chatT, chatT, folderFail, chatT]).errors =
       (execute_plan_with_recovery failRemote [] [chatT, chatT, folderFail]).errors ∧
     (execute_plan_with_recovery failRemote [] [chatT, chatT, folderFail, chatT]).completed_tasks =
       (execute_plan_with_recovery failRemote [] [chatT, chatT, folderFail]).completed_tasks) ∧
    2 + 2 ≤
      (execute_plan_with_recovery failRemote [] [chatT, chatT, plainFail, chatT]).results.length +
      (execute_plan_with_recovery failRemote [] [chatT, chatT, plainFail, chatT]).errors.length :=
  ⟨C3_theorem.1 failRemote [chatT, chatT] folderFail [chatT] (by decide) (by decide),
   C3_theorem.2 failRemote [chatT, chatT, plainFail, chatT]
     ⟨"Create part Y", "Execution failed: boom", 2⟩ 2
     (by decide) rfl (by decide) (by decide) (by decide) (by decide)⟩

end RoboVibe
